import Mathlib

/-!
Shallow embedding of the `physics-engine` core of the `rmmz-development`
monorepo (packages/physics-engine/src, plus the legacy top-level src tree),
together with proofs checking the natural-language specification against it.

JavaScript `number` arithmetic is idealised as real arithmetic (`ℝ`), the
usual idealisation for this kind of code: none of the checked claims is about
floating-point rounding.  `Math.sqrt` becomes `Real.sqrt`, `Infinity` in the
mass field becomes the dedicated constructor `JsMass.inf` (the source encodes
static bodies as `mass === Infinity` and never performs arithmetic on an
infinite mass), and a `throw` becomes `Except.error`.

Mutation is modelled by state passing: every method of `Body`, of
`CollisionResolver` and of `World` becomes a function returning the updated
value.  The source aliases `body.position` and `body.shape.center` (one
storage cell); the embedding stores the centre once, inside the shape, and
derives `Body.position` from it, so the aliasing is by construction.
-/

namespace Physick

noncomputable section

/-! ### math/MathUtils.ts -/

/-- `EPSILON = 1e-10` from MathUtils.ts. -/
def EPSILON : ℝ := 1 / 10 ^ 10

/-- `EPSILON_SQ = EPSILON * EPSILON` from MathUtils.ts. -/
def EPSILON_SQ : ℝ := EPSILON * EPSILON

/-- `approxZero(value)` from MathUtils.ts (default epsilon). -/
def approxZero (value : ℝ) : Prop := |value| < EPSILON

instance (value : ℝ) : Decidable (approxZero value) := by
  unfold approxZero; infer_instance

/-- `clamp(value, min, max)` from MathUtils.ts. -/
def clamp (value lo hi : ℝ) : ℝ := max lo (min hi value)

/-! ### math/Vector.ts -/

/-- 2D vector (math/Vector.ts). -/
structure Vec where
  x : ℝ
  y : ℝ


namespace Vec

/-- `Vector.zero()`. -/
def zero : Vec := ⟨0, 0⟩

/-- `add` (and the mutating `addMut`, which computes the same value). -/
def add (v w : Vec) : Vec := ⟨v.x + w.x, v.y + w.y⟩

/-- `subtract` / `subtractMut`. -/
def sub (v w : Vec) : Vec := ⟨v.x - w.x, v.y - w.y⟩

/-- `multiply(scalar)` / `multiplyMut`. -/
def smul (v : Vec) (s : ℝ) : Vec := ⟨v.x * s, v.y * s⟩

/-- `divide(scalar)`: guarded against near-zero scalars. -/
def divide (v : Vec) (s : ℝ) : Vec :=
  if approxZero s then zero else ⟨v.x / s, v.y / s⟩

/-- `dot(v)`. -/
def dot (v w : Vec) : ℝ := v.x * w.x + v.y * w.y

/-- `lengthSquared()`. -/
def lengthSquared (v : Vec) : ℝ := v.x * v.x + v.y * v.y

/-- `length()` (`Math.sqrt` of `lengthSquared`). -/
def length (v : Vec) : ℝ := Real.sqrt v.lengthSquared

/-- `normalize()`: zero vector when the squared length is below `EPSILON_SQ`. -/
def normalize (v : Vec) : Vec :=
  if v.lengthSquared < EPSILON_SQ then zero
  else
    let len := Real.sqrt v.lengthSquared
    ⟨v.x / len, v.y / len⟩

/-- `distanceSquared(v)`. -/
def distanceSquared (v w : Vec) : ℝ :=
  (v.x - w.x) * (v.x - w.x) + (v.y - w.y) * (v.y - w.y)

end Vec

/-! ### geometry: Shape.ts, Circle.ts, Rectangle.ts, AABB.ts

Both `Circle` and `Rectangle` store their centre as the source of truth
(Rectangle derives `min`/`max` from centre and dimensions).  The embedding
follows that storage layout. -/

/-- Axis-aligned bounding box (geometry/AABB.ts). -/
structure AABB where
  min : Vec
  max : Vec


/-- Shape variant (geometry/Circle.ts and geometry/Rectangle.ts); the centre
is stored in the shape, as in the source. -/
inductive Shape where
  | circle (center : Vec) (radius : ℝ)
  | rect (center : Vec) (width height : ℝ)


namespace Shape

/-- The shared centre cell (`circle.center` / `rectangle.center`). -/
def center : Shape → Vec
  | circle c _ => c
  | rect c _ _ => c

/-- Rewriting the shared centre cell in place (used by `Body` position
updates, which mutate the aliased centre). -/
def setCenter : Shape → Vec → Shape
  | circle _ r, c => circle c r
  | rect _ w h, c => rect c w h

/-- `Circle.getAABB()` / `Rectangle.getAABB()` (min/max derived from the
centre, as in the source's computed properties). -/
def getAABB : Shape → AABB
  | circle c r => ⟨⟨c.x - r, c.y - r⟩, ⟨c.x + r, c.y + r⟩⟩
  | rect c w h =>
      ⟨⟨c.x - w / 2, c.y - h / 2⟩, ⟨c.x + w / 2, c.y + h / 2⟩⟩

end Shape

/-! ### physics/Material.ts -/

/-- Material: restitution and friction pair (physics/Material.ts). -/
structure Material where
  restitution : ℝ
  friction : ℝ


/-- `Material.DEFAULT = new Material(0.5, 0.3)`. -/
def Material.DEFAULT : Material := ⟨1 / 2, 3 / 10⟩

/-! ### physics/Body.ts

Static bodies are encoded as `mass === Infinity`; `JsMass` separates that
marker value from finite masses, on which the source does arithmetic. -/

/-- A JavaScript mass value: a finite number or `Infinity`. -/
inductive JsMass where
  | val (m : ℝ)
  | inf


/-- The finite value of a mass (only read on code paths where the source has
already ruled out `Infinity`). -/
def JsMass.toReal : JsMass → ℝ
  | val m => m
  | inf => 0

/-- Rigid body (physics/Body.ts).  `position` is not a separate field: the
source makes it an alias of `shape.center`, which the embedding realises by
deriving it (`Body.position`). -/
structure Body where
  id : ℕ
  shape : Shape
  velocity : Vec
  acceleration : Vec
  mass : JsMass
  inverseMass : ℝ
  forceAccumulator : Vec
  movementVector : Vec
  material : Material
  isSensor : Bool
  layer : ℕ
  resolutionMask : ℕ
  eventMask : ℕ


namespace Body

/-- `body.position`: the same storage cell as `shape.center`. -/
def position (b : Body) : Vec := b.shape.center

/-- Writing through the alias: `position.x = ...` mutates the shape centre. -/
def setCenter (b : Body) (c : Vec) : Body := { b with shape := b.shape.setCenter c }

/-- `get collisionMask()`: `eventMask | resolutionMask`. -/
def collisionMask (b : Body) : ℕ := b.eventMask ||| b.resolutionMask

/-- `isStatic()`: `mass === Infinity`. -/
def isStatic (b : Body) : Bool :=
  match b.mass with
  | JsMass.inf => true
  | JsMass.val _ => false

/-- The `Body` constructor.  Throws (here: `Except.error`) on infinite mass;
otherwise initialises the kinematic state to zero, the masks to
`0xffffffff`, and `inverseMass = mass > EPSILON ? 1 / mass : 0`. -/
def mkBody (bodyId : ℕ) (shape : Shape) (material : Material) (mass : JsMass) :
    Except String Body :=
  match mass with
  | JsMass.inf =>
      Except.error "Cannot create body with infinite mass. Use setStatic() instead."
  | JsMass.val m =>
      Except.ok
        { id := bodyId
          shape := shape
          velocity := Vec.zero
          acceleration := Vec.zero
          mass := JsMass.val m
          inverseMass := if EPSILON < m then m⁻¹ else 0
          forceAccumulator := Vec.zero
          movementVector := Vec.zero
          material := material
          isSensor := false
          layer := 0xffffffff
          resolutionMask := 0xffffffff
          eventMask := 0xffffffff }

/-- `setStatic()`: infinite mass, zero inverse mass, velocity zeroed. -/
def setStatic (b : Body) : Body :=
  { b with mass := JsMass.inf, inverseMass := 0, velocity := Vec.zero }

/-- `setMass(mass)`: no-op on a static body; throws on `Infinity`; otherwise
updates `mass` and the cached `inverseMass`. -/
def setMass (b : Body) (mass : JsMass) : Except String Body :=
  if b.isStatic then Except.ok b
  else
    match mass with
    | JsMass.inf =>
        Except.error "Cannot set mass to Infinity. Use setStatic() instead."
    | JsMass.val m =>
        Except.ok { b with mass := JsMass.val m,
                           inverseMass := if EPSILON < m then m⁻¹ else 0 }

/-- `applyForce(force)`: accumulates, except on static bodies. -/
def applyForce (b : Body) (force : Vec) : Body :=
  if b.isStatic then b
  else { b with forceAccumulator := b.forceAccumulator.add force }

/-- `applyImpulse(impulse)`: `velocity += impulse * inverseMass`, except on
static bodies. -/
def applyImpulse (b : Body) (impulse : Vec) : Body :=
  if b.isStatic then b
  else { b with velocity := b.velocity.add (impulse.smul b.inverseMass) }

/-- `applyMovement(impulse)`: records the normalized movement direction and
then applies the impulse; no-op on static bodies. -/
def applyMovement (b : Body) (impulse : Vec) : Body :=
  if b.isStatic then b
  else
    let b' :=
      if EPSILON_SQ < impulse.lengthSquared then
        { b with movementVector := impulse.normalize }
      else { b with movementVector := Vec.zero }
    b'.applyImpulse impulse

/-- `clearForces()`. -/
def clearForces (b : Body) : Body := { b with forceAccumulator := Vec.zero }

/-- `clearMovement()`. -/
def clearMovement (b : Body) : Body := { b with movementVector := Vec.zero }

/-- The dynamic branch of `integrate` (the code after the static guard):
semi-implicit Euler with the gravity-as-drag damping factor and the
small-velocity clamp, named so that theorems can state which branch a
non-static body takes. -/
def integrateDynamic (b : Body) (dt gravity : ℝ) : Body :=
  let accel := b.forceAccumulator.smul b.inverseMass
  let v1 := b.velocity.add (accel.smul dt)
  let v2 :=
    if 0 < gravity ∧ 0 < b.material.friction ∧ ¬b.isStatic then
      let damping := gravity * b.material.friction * b.mass.toReal
      v1.smul (max 0 (1 - damping * dt))
    else v1
  let v3 := if v2.lengthSquared < EPSILON_SQ then Vec.zero else v2
  { (b.setCenter (b.position.add (v3.smul dt))) with velocity := v3 }

/-- `integrate(dt, gravity)`: no-op on static bodies, otherwise the dynamic
branch. -/
def integrate (b : Body) (dt gravity : ℝ) : Body :=
  if b.isStatic then b else b.integrateDynamic dt gravity

/-- `getAABB()`. -/
def getAABB (b : Body) : AABB := b.shape.getAABB

/-- `setVelocity(velocity)` (clones the argument; no static guard). -/
def setVelocity (b : Body) (v : Vec) : Body := { b with velocity := v }

/-- `canDetectCollisionWith(other)`: bilateral collision-mask filter. -/
def canDetectCollisionWith (a b : Body) : Bool :=
  a.collisionMask &&& b.layer ≠ 0 && b.collisionMask &&& a.layer ≠ 0

/-- `canResolveCollisionWith(other)`: sensors never resolve; otherwise a
bilateral resolution-mask filter. -/
def canResolveCollisionWith (a b : Body) : Bool :=
  if a.isSensor || b.isSensor then false
  else a.resolutionMask &&& b.layer ≠ 0 && b.resolutionMask &&& a.layer ≠ 0

/-- `canEmitEventWith(other)`: sensors always emit; otherwise a unilateral
event-mask check. -/
def canEmitEventWith (a b : Body) : Bool :=
  if a.isSensor || b.isSensor then true
  else a.eventMask &&& b.layer ≠ 0 || b.eventMask &&& a.layer ≠ 0

end Body

/-! ### collision/Contact.ts and collision/Manifold.ts -/

/-- A single contact point (collision/Contact.ts): world-space point, normal
from `bodyA` toward `bodyB`, and penetration depth. -/
structure Contact where
  point : Vec
  normal : Vec
  penetration : ℝ

/-- `Manifold.calculateRestitution()`:  a body is treated as static when its
`inverseMass < EPSILON`; static–dynamic pairs use the dynamic body's
restitution, all other pairs the mean of the two. -/
def calculateRestitution (a b : Body) : ℝ :=
  let isAStatic := a.inverseMass < EPSILON
  let isBStatic := b.inverseMass < EPSILON
  if isAStatic ∧ ¬isBStatic then b.material.restitution
  else if isBStatic ∧ ¬isAStatic then a.material.restitution
  else (a.material.restitution + b.material.restitution) / 2

/-- `Manifold.calculateFriction()`: geometric mean of the two frictions. -/
def calculateFriction (a b : Body) : ℝ :=
  Real.sqrt (a.material.friction * b.material.friction)

/-- Collision manifold (collision/Manifold.ts).  The source stores the two
bodies by reference; the embedding stores their ids and reads the bodies
back from the world's store when the resolver runs. -/
structure Manifold where
  idA : ℕ
  idB : ℕ
  contacts : List Contact
  restitution : ℝ
  friction : ℝ

/-- The `Manifold` constructor: combined restitution and friction are
computed once, from the two bodies, when the manifold is built. -/
def mkManifold (a b : Body) (contacts : List Contact) : Manifold :=
  { idA := a.id
    idB := b.id
    contacts := contacts
    restitution := calculateRestitution a b
    friction := calculateFriction a b }

/-! ### collision/ShapeOverlap.ts (the parts the detectors use) -/

/-- `testCircleCircleOverlap`: squared-distance test with `EPSILON_SQ`
slack. -/
def testCircleCircleOverlap (cA : Vec) (rA : ℝ) (cB : Vec) (rB : ℝ) : Prop :=
  cA.distanceSquared cB < (rA + rB) * (rA + rB) + EPSILON_SQ

instance (cA : Vec) (rA : ℝ) (cB : Vec) (rB : ℝ) :
    Decidable (testCircleCircleOverlap cA rA cB rB) := by
  unfold testCircleCircleOverlap; infer_instance

/-! ### Narrow-phase detectors

The repository carries two generations of the circle–circle detector: the
legacy one (top-level src/src/collision/detectors/CircleCircle.ts), which
bails out exactly when `distSq >= radiusSumSq`, and the packages one
(packages/physics-engine/src/collision/detectors/CircleCircle.ts), which
bails out through `testCircleCircleOverlap`, i.e. when
`distSq >= radiusSumSq + EPSILON_SQ`.  Both are embedded.

The detectors in the source cast `body.shape as Circle`; the embedding reads
the circle data with `circleRadius` (the cast is only exercised by the
dispatcher on matching shapes, and every theorem below carries the matching
shape hypothesis). -/

/-- Radius read through the `shape as Circle` cast. -/
def Shape.circleRadius : Shape → ℝ
  | Shape.circle _ r => r
  | Shape.rect _ _ _ => 0

/-- Shared tail of both circle–circle detectors: the coincident-centre case
and the generic case. -/
def circleCircleContact (a b : Body) : Contact :=
  let radiusSum := a.shape.circleRadius + b.shape.circleRadius
  let distSq := a.position.distanceSquared b.position
  let distance := Real.sqrt distSq
  if distance < EPSILON then
    { point := a.position, normal := ⟨1, 0⟩, penetration := radiusSum }
  else
    let normal := (b.position.sub a.position).divide distance
    { point := a.position.add (normal.smul a.shape.circleRadius)
      normal := normal
      penetration := radiusSum - distance }

/-- `detectCircleCircle` of the packages tree: overlap test with
`EPSILON_SQ` slack, then the shared contact construction. -/
def detectCircleCircle (a b : Body) : Option Manifold :=
  if testCircleCircleOverlap a.position a.shape.circleRadius
      b.position b.shape.circleRadius then
    some (mkManifold a b [circleCircleContact a b])
  else none

namespace Legacy

/-- `detectCircleCircle` of the legacy tree: strict `distSq >= radiusSumSq`
rejection, then the same contact construction. -/
def detectCircleCircle (a b : Body) : Option Manifold :=
  let radiusSum := a.shape.circleRadius + b.shape.circleRadius
  if (radiusSum * radiusSum) ≤ a.position.distanceSquared b.position then none
  else some (Physick.mkManifold a b [Physick.circleCircleContact a b])

end Legacy

/-- Rectangle min/max read through the `shape as Rectangle` cast. -/
def Shape.rectMin : Shape → Vec
  | Shape.circle c _ => c
  | Shape.rect c w h => ⟨c.x - w / 2, c.y - h / 2⟩

/-- Rectangle max corner (see `Shape.rectMin`). -/
def Shape.rectMax : Shape → Vec
  | Shape.circle c _ => c
  | Shape.rect c w h => ⟨c.x + w / 2, c.y + h / 2⟩

/-- `detectCircleRectangle` (bodyA is the circle, bodyB the rectangle); the
normal points rectangle→circle and the dispatcher corrects it. -/
def detectCircleRectangle (a b : Body) : Option Manifold :=
  let rmin := b.shape.rectMin
  let rmax := b.shape.rectMax
  let closest : Vec := ⟨clamp a.position.x rmin.x rmax.x, clamp a.position.y rmin.y rmax.y⟩
  let offset := a.position.sub closest
  let distSq := offset.lengthSquared
  let radius := a.shape.circleRadius
  if radius * radius + EPSILON < distSq then none
  else
    let distance := Real.sqrt distSq
    if distance < EPSILON then
      let distToLeft := a.position.x - rmin.x
      let distToRight := rmax.x - a.position.x
      let distToTop := a.position.y - rmin.y
      let distToBottom := rmax.y - a.position.y
      let minDist := min (min distToLeft distToRight) (min distToTop distToBottom)
      let np : Vec × ℝ :=
        if minDist = distToLeft then (⟨-1, 0⟩, radius + distToLeft)
        else if minDist = distToRight then (⟨1, 0⟩, radius + distToRight)
        else if minDist = distToTop then (⟨0, -1⟩, radius + distToTop)
        else (⟨0, 1⟩, radius + distToBottom)
      some (mkManifold a b
        [{ point := a.position.sub (np.1.smul radius), normal := np.1,
           penetration := np.2 }])
    else
      let normal := offset.divide distance
      some (mkManifold a b
        [{ point := a.position.sub (normal.smul radius), normal := normal,
           penetration := radius - distance }])

/-- `testRectangleRectangleOverlap`: strict axis overlap beyond `EPSILON`. -/
def testRectangleRectangleOverlap (a b : Body) : Prop :=
  EPSILON < min a.shape.rectMax.x b.shape.rectMax.x - max a.shape.rectMin.x b.shape.rectMin.x ∧
  EPSILON < min a.shape.rectMax.y b.shape.rectMax.y - max a.shape.rectMin.y b.shape.rectMin.y

instance (a b : Body) : Decidable (testRectangleRectangleOverlap a b) := by
  unfold testRectangleRectangleOverlap; infer_instance

/-- `detectRectangleRectangle`: SAT on the two axes, minimum-penetration
normal, contact at the centre of the overlap region. -/
def detectRectangleRectangle (a b : Body) : Option Manifold :=
  if testRectangleRectangleOverlap a b then
    let overlapX := min a.shape.rectMax.x b.shape.rectMax.x - max a.shape.rectMin.x b.shape.rectMin.x
    let overlapY := min a.shape.rectMax.y b.shape.rectMax.y - max a.shape.rectMin.y b.shape.rectMin.y
    let np : Vec × ℝ :=
      if overlapX < overlapY then
        (if a.position.x < b.position.x then (⟨1, 0⟩, overlapX) else (⟨-1, 0⟩, overlapX))
      else
        (if a.position.y < b.position.y then (⟨0, 1⟩, overlapY) else (⟨0, -1⟩, overlapY))
    let contactPoint : Vec :=
      ⟨(max a.shape.rectMin.x b.shape.rectMin.x + min a.shape.rectMax.x b.shape.rectMax.x) / 2,
       (max a.shape.rectMin.y b.shape.rectMin.y + min a.shape.rectMax.y b.shape.rectMax.y) / 2⟩
    some (mkManifold a b [{ point := contactPoint, normal := np.1, penetration := np.2 }])
  else none

/-- `CollisionDetector.detect`: dispatch on the shape kinds; the
circle–rectangle wrappers flip or keep the normal so that the manifold-level
normal points from the A role toward the B role. -/
def CollisionDetector.detect (a b : Body) : Option Manifold :=
  match a.shape, b.shape with
  | Shape.circle _ _, Shape.circle _ _ => detectCircleCircle a b
  | Shape.circle _ _, Shape.rect _ _ _ =>
      match detectCircleRectangle a b with
      | some m =>
          some (mkManifold a b
            (m.contacts.map fun c => { c with normal := c.normal.smul (-1) }))
      | none => none
  | Shape.rect _ _ _, Shape.circle _ _ =>
      match detectCircleRectangle b a with
      | some m => some (mkManifold a b m.contacts)
      | none => none
  | Shape.rect _ _ _, Shape.rect _ _ _ => detectRectangleRectangle a b

/-! ### collision/ContinuousCollisionDetection.ts -/

/-- Swept collision result: normalised time of impact, surface normal and
contact point. -/
structure SweptResult where
  toi : ℝ
  normal : Vec
  point : Vec

namespace ContinuousCollisionDetection

/-- `needsSweptTest(body, dt)`: false for `inverseMass < EPSILON`, else true
exactly when the displacement `|v|·dt` exceeds half the smallest AABB
dimension. -/
def needsSweptTest (b : Body) (dt : ℝ) : Prop :=
  if b.inverseMass < EPSILON then False
  else
    let displacement := b.velocity.length * dt
    let aabb := b.getAABB
    let minDimension := min (aabb.max.x - aabb.min.x) (aabb.max.y - aabb.min.y)
    minDimension * (1 / 2) < displacement

instance (b : Body) (dt : ℝ) : Decidable (needsSweptTest b dt) := by
  unfold needsSweptTest
  split <;> infer_instance

/-- `sweptCircleCircle`: quadratic ray–sphere solve for the first root in
`[0, dt]`, normalised to a `toi` fraction. -/
def sweptCircleCircle (circleA circleB : Body) (relativeVelocity : Vec) (dt : ℝ) :
    Option SweptResult :=
  let radiusSum := circleA.shape.circleRadius + circleB.shape.circleRadius
  let centerDiff := circleA.position.sub circleB.position
  let a := relativeVelocity.dot relativeVelocity
  let b := 2 * centerDiff.dot relativeVelocity
  let c := centerDiff.dot centerDiff - radiusSum * radiusSum
  let discriminant := b * b - 4 * a * c
  if discriminant < 0 then none
  else
    let sqrtDisc := Real.sqrt discriminant
    let t := (-b - sqrtDisc) / (2 * a)
    if t < 0 ∨ dt < t then none
    else
      let contactPoint := circleA.position.add (relativeVelocity.smul t)
      some { toi := t / dt
             normal := (contactPoint.sub circleB.position).normalize
             point := contactPoint }

/-- One slab pass of `raycastAABB` over one axis: given the slab bounds,
the ray's coordinate and direction on that axis, the running
`(tMin, tMax, hitNormal)` and the two candidate hit normals, it either
advances `tMin`/`tMax` (recording the normal when `tMin` advances) or
rejects a parallel ray that starts outside the slab. -/
def raycastSlab (minC maxC originC dirC tMin tMax : ℝ)
    (nPos nNeg nPrev : Vec) : Option (ℝ × ℝ × Vec) :=
  if EPSILON < |dirC| then
    let t1 := (minC - originC) / dirC
    let t2 := (maxC - originC) / dirC
    let tcMin := min t1 t2
    let tcMax := max t1 t2
    if tMin < tcMin then
      some (tcMin, min tMax tcMax, if 0 < dirC then nPos else nNeg)
    else some (tMin, min tMax tcMax, nPrev)
  else if originC < minC ∨ maxC < originC then none
  else some (tMin, tMax, nPrev)

/-- `raycastAABB`: slab method.  `tMin` starts at `0` and `tMax` at `maxT`;
the X slab then the Y slab each advance them through `raycastSlab`, and the
usual rejections (`tMin > tMax`, `tMax < 0`, `tMin > maxT`) apply before
the hit at `tMin` is returned. -/
def raycastAABB (origin direction : Vec) (aabb : AABB) (maxT : ℝ) :
    Option SweptResult :=
  match raycastSlab aabb.min.x aabb.max.x origin.x direction.x 0 maxT
      ⟨-1, 0⟩ ⟨1, 0⟩ ⟨0, 0⟩ with
  | none => none
  | some (tMin1, tMax1, n1) =>
    match raycastSlab aabb.min.y aabb.max.y origin.y direction.y tMin1 tMax1
        ⟨0, -1⟩ ⟨0, 1⟩ n1 with
    | none => none
    | some (tMin, tMax, hitNormal) =>
      if tMax < tMin then none
      else if tMax < 0 then none
      else if maxT < tMin then none
      else
        some { toi := tMin / maxT
               normal := hitNormal
               point := origin.add (direction.smul tMin) }

/-- `sweptCircleRect`: Minkowski expansion of the rectangle by the circle
radius, then a raycast of the circle centre. -/
def sweptCircleRect (circle rect : Body) (relativeVelocity : Vec) (dt : ℝ) :
    Option SweptResult :=
  let r := circle.shape.circleRadius
  let expanded : AABB :=
    ⟨(rect.shape.rectMin).sub ⟨r, r⟩, (rect.shape.rectMax).add ⟨r, r⟩⟩
  raycastAABB circle.position relativeVelocity expanded dt

/-- `sweptRectRect`: Minkowski expansion of rect B by rect A's half-size,
then a raycast of rect A's centre. -/
def sweptRectRect (rectA rectB : Body) (relativeVelocity : Vec) (dt : ℝ) :
    Option SweptResult :=
  let halfSizeA : Vec :=
    ⟨(rectA.shape.rectMax.x - rectA.shape.rectMin.x) / 2,
     (rectA.shape.rectMax.y - rectA.shape.rectMin.y) / 2⟩
  let expanded : AABB :=
    ⟨(rectB.shape.rectMin).sub halfSizeA, (rectB.shape.rectMax).add halfSizeA⟩
  raycastAABB rectA.position relativeVelocity expanded dt

/-- `checkSweptCollision(bodyA, bodyB, dt)`: relative-velocity guard, then
dispatch on the shape pair (the rectangle–circle case swaps the bodies,
negates the relative velocity and flips the returned normal). -/
def checkSweptCollision (bodyA bodyB : Body) (dt : ℝ) : Option SweptResult :=
  let relativeVelocity := bodyA.velocity.sub bodyB.velocity
  if relativeVelocity.lengthSquared < EPSILON then none
  else
    match bodyA.shape, bodyB.shape with
    | Shape.circle _ _, Shape.circle _ _ =>
        sweptCircleCircle bodyA bodyB relativeVelocity dt
    | Shape.circle _ _, Shape.rect _ _ _ =>
        sweptCircleRect bodyA bodyB relativeVelocity dt
    | Shape.rect _ _ _, Shape.circle _ _ =>
        (sweptCircleRect bodyB bodyA (relativeVelocity.smul (-1)) dt).map
          fun res => { res with normal := res.normal.smul (-1) }
    | Shape.rect _ _ _, Shape.rect _ _ _ =>
        sweptRectRect bodyA bodyB relativeVelocity dt

end ContinuousCollisionDetection

/-! ### collision/CollisionResolver.ts -/

/-- Resolver / world configuration (CollisionResolver fields plus the
WorldConfig values the world forwards to it). -/
structure Config where
  gravity : ℝ
  timeStep : ℝ
  maxSubSteps : ℕ
  velocityIterations : ℕ
  positionIterations : ℕ
  positionSlop : ℝ
  positionCorrectionPercent : ℝ
  restingVelocityThreshold : ℝ

/-- Defaults: `gravity 1`, `timeStep 1/60`, `maxSubSteps 8`,
`velocityIterations 6`, `positionIterations 1` (DEFAULT_WORLD_CONFIG),
`positionSlop 0.01`, `positionCorrectionPercent 0.8`,
`restingVelocityThreshold 0.5`. -/
def Config.default : Config :=
  { gravity := 1
    timeStep := 1 / 60
    maxSubSteps := 8
    velocityIterations := 6
    positionIterations := 1
    positionSlop := 1 / 100
    positionCorrectionPercent := 8 / 10
    restingVelocityThreshold := 1 / 2 }

namespace CollisionResolver

/-- `isDynamicVsStatic` of `resolveVelocity`: exactly one of the two bodies
has `inverseMass < EPSILON`. -/
def isDynamicVsStatic (a b : Body) : Prop :=
  (a.inverseMass < EPSILON ∧ ¬b.inverseMass < EPSILON) ∨
  (¬a.inverseMass < EPSILON ∧ b.inverseMass < EPSILON)

instance (a b : Body) : Decidable (isDynamicVsStatic a b) := by
  unfold isDynamicVsStatic; infer_instance

/-- The effective restitution of one contact in `resolveVelocity`: the
manifold restitution, overridden to `0` for intentional movement into a
static body and for resting contacts. -/
def effectiveRestitution (cfg : Config) (a b : Body) (restitution : ℝ)
    (contact : Contact) (velocityAlongNormal : ℝ) : ℝ :=
  let e1 :=
    if isDynamicVsStatic a b then
      let movingBody := if a.inverseMass < EPSILON then b else a
      let normalDirection : ℝ := if a.inverseMass < EPSILON then 1 else -1
      if EPSILON_SQ < movingBody.movementVector.lengthSquared then
        if movingBody.movementVector.dot contact.normal * normalDirection < -EPSILON then
          0
        else restitution
      else restitution
    else restitution
  if |velocityAlongNormal| < cfg.restingVelocityThreshold then 0 else e1

/-- The normal impulse magnitude `j = -(1 + e) * vN / (invMassA + invMassB)`
of one contact in `resolveVelocity`. -/
def normalImpulse (cfg : Config) (a b : Body) (restitution : ℝ)
    (contact : Contact) : ℝ :=
  let velocityAlongNormal := (b.velocity.sub a.velocity).dot contact.normal
  (-(1 + effectiveRestitution cfg a b restitution contact velocityAlongNormal) *
      velocityAlongNormal / (a.inverseMass + b.inverseMass))

/-- `applyFriction`: tangential impulse clamped by the Coulomb cap
`μ·|j|`. -/
def applyFriction (a b : Body) (contact : Contact) (friction normalImpulse : ℝ) :
    Body × Body :=
  let invMassSum := a.inverseMass + b.inverseMass
  let relativeVelocity := b.velocity.sub a.velocity
  let tangent :=
    relativeVelocity.sub (contact.normal.smul (relativeVelocity.dot contact.normal))
  if tangent.lengthSquared < EPSILON_SQ then (a, b)
  else
    let tangentNormalized := tangent.normalize
    let tangentVelocity := relativeVelocity.dot tangentNormalized
    let frictionImpulse := -tangentVelocity / invMassSum
    let maxFriction := |normalImpulse| * friction
    let clamped := max (-maxFriction) (min frictionImpulse maxFriction)
    let frictionVector := tangentNormalized.smul clamped
    ({ a with velocity := a.velocity.sub (frictionVector.smul a.inverseMass) },
     { b with velocity := b.velocity.add (frictionVector.smul b.inverseMass) })

/-- Processing of one contact inside `resolveVelocity`: skip separating
contacts, apply the normal impulse, then friction when the combined friction
exceeds `EPSILON`. -/
def resolveVelocityContact (cfg : Config) (a b : Body)
    (restitution friction : ℝ) (contact : Contact) : Body × Body :=
  let velocityAlongNormal := (b.velocity.sub a.velocity).dot contact.normal
  if 0 < velocityAlongNormal then (a, b)
  else
    let j := normalImpulse cfg a b restitution contact
    let impulse := contact.normal.smul j
    let a' := { a with velocity := a.velocity.sub (impulse.smul a.inverseMass) }
    let b' := { b with velocity := b.velocity.add (impulse.smul b.inverseMass) }
    if EPSILON < friction then applyFriction a' b' contact friction j
    else (a', b')

/-- `resolveVelocity(manifold)` on a looked-up body pair: skip when both
inverse masses vanish, otherwise fold the contacts. -/
def resolveVelocityBodies (cfg : Config) (a b : Body) (m : Manifold) :
    Body × Body :=
  if a.inverseMass + b.inverseMass < EPSILON then (a, b)
  else
    m.contacts.foldl
      (fun (p : Body × Body) contact =>
        resolveVelocityContact cfg p.1 p.2 m.restitution m.friction contact)
      (a, b)

/-- Processing of one contact inside `resolvePosition`: Baumgarte-style
partial correction split by inverse-mass ratio and written through the
position/centre alias. -/
def resolvePositionContact (cfg : Config) (a b : Body) (contact : Contact) :
    Body × Body :=
  let invMassSum := a.inverseMass + b.inverseMass
  let correctionDepth := max (contact.penetration - cfg.positionSlop) 0
  if correctionDepth < EPSILON then (a, b)
  else
    let correctionAmount := correctionDepth * cfg.positionCorrectionPercent
    let correctionVector := contact.normal.smul correctionAmount
    let correctionA := correctionVector.smul (a.inverseMass / invMassSum)
    let correctionB := correctionVector.smul (b.inverseMass / invMassSum)
    (a.setCenter (a.position.sub correctionA),
     b.setCenter (b.position.add correctionB))

/-- `resolvePosition(manifold)` on a looked-up body pair. -/
def resolvePositionBodies (cfg : Config) (a b : Body) (m : Manifold) :
    Body × Body :=
  if a.inverseMass + b.inverseMass < EPSILON then (a, b)
  else
    m.contacts.foldl
      (fun (p : Body × Body) contact => resolvePositionContact cfg p.1 p.2 contact)
      (a, b)

end CollisionResolver

/-! ### world/World.ts

The world's body map becomes a list of bodies looked up by id, and the
spatial hash is abstracted by the candidate pair list it hands to
`fixedStep` (a `pairsFn` parameter of type `List Body → List (ℕ × ℕ)`): the
invariance theorems below are proved for every candidate pair list, hence
in particular for the one the broad-phase produces.  Event dispatch never
mutates body state in the engine (handlers are host code, outside the
model), so `fixedStep` tracks only the body store; the emission decision of
`emitCollisionEvents` is embedded separately as `emitsStartOrActive`. -/

namespace World

/-- `bodies.get(id)` on the id-indexed store. -/
def getBody (bodies : List Body) (i : ℕ) : Option Body :=
  bodies.find? fun b => b.id == i

/-- Writing a body back into the store at an id (object mutation in the
source). -/
def updateBody (bodies : List Body) (i : ℕ) (f : Body → Body) : List Body :=
  bodies.map fun b => if b.id == i then f b else b

/-- `getCollisionKey(bodyA, bodyB)`: Cantor pairing of the sorted ids. -/
def getCollisionKey (idA idB : ℕ) : ℕ :=
  let a := min idA idB
  let b := max idA idB
  (a + b) * (a + b + 1) / 2 + b

/-- `Pair.hash(bodyA, bodyB)` (spatial/Pair.ts): the same Cantor pairing of
the sorted ids. -/
def pairHash (idA idB : ℕ) : ℕ :=
  let a := min idA idB
  let b := max idA idB
  (a + b) * (a + b + 1) / 2 + b

/-- `decomposeCollisionKey(key)`: inverse Cantor pairing via
`w = floor((sqrt(8*key + 1) - 1) / 2)`. -/
def decomposeCollisionKey (key : ℕ) : ℕ × ℕ :=
  let w : ℕ := (⌊(Real.sqrt (8 * (key : ℝ) + 1) - 1) / 2⌋).toNat
  let t := (w * w + w) / 2
  let b := key - t
  (w - b, b)

/-- The per-pair decision of `emitCollisionEvents` for a pair colliding this
frame: static–static pairs are skipped, then the event-mask filter (with
sensor bypass) applies. -/
def emitsStartOrActive (a b : Body) : Bool :=
  !(a.isStatic && b.isStatic) && a.canEmitEventWith b

/-- CCD phase of `fixedStep`: walk the candidate pairs; for each pair not
yet advanced this sub-step in which a body needs a swept test and the swept
test hits, integrate both bodies to the time of impact and record the
consumed time. -/
def ccdPass (cfg : Config) (pairs : List (ℕ × ℕ)) (bodies : List Body)
    (dt : ℝ) : List Body × List (ℕ × ℝ) :=
  pairs.foldl
    (fun (st : List Body × List (ℕ × ℝ)) pair =>
      let (bs, consumedTime) := st
      match getBody bs pair.1, getBody bs pair.2 with
      | some bodyA, some bodyB =>
          if (consumedTime.lookup bodyA.id).isSome ||
             (consumedTime.lookup bodyB.id).isSome then st
          else if ContinuousCollisionDetection.needsSweptTest bodyA dt ∨
                  ContinuousCollisionDetection.needsSweptTest bodyB dt then
            match ContinuousCollisionDetection.checkSweptCollision bodyA bodyB dt with
            | some sweptResult =>
                let toiDt := sweptResult.toi * dt
                let bs' :=
                  updateBody
                    (updateBody bs bodyA.id fun b => b.integrate toiDt cfg.gravity)
                    bodyB.id fun b => b.integrate toiDt cfg.gravity
                (bs', (bodyA.id, toiDt) :: (bodyB.id, toiDt) :: consumedTime)
            | none => st
          else st
      | _, _ => st)
    (bodies, [])

/-- Detection phase of `fixedStep`: narrow-phase on every candidate pair,
keeping manifolds with contacts and bucketing them into regular and sensor
manifolds. -/
def detectPass (bodies : List Body) (pairs : List (ℕ × ℕ)) :
    List Manifold × List Manifold :=
  pairs.foldl
    (fun (st : List Manifold × List Manifold) pair =>
      match getBody bodies pair.1, getBody bodies pair.2 with
      | some bodyA, some bodyB =>
          match CollisionDetector.detect bodyA bodyB with
          | some manifold =>
              if manifold.contacts.length ≠ 0 then
                if bodyA.isSensor || bodyB.isSensor then
                  (st.1, st.2 ++ [manifold])
                else (st.1 ++ [manifold], st.2)
              else st
          | none => st
      | _, _ => st)
    ([], [])

/-- The `resolvableManifolds` filter of `fixedStep`: regular manifolds whose
bodies pass the bilateral `canResolveCollisionWith` check. -/
def resolvableManifolds (bodies : List Body) (regular : List Manifold) :
    List Manifold :=
  regular.filter fun m =>
    match getBody bodies m.idA, getBody bodies m.idB with
    | some a, some b => a.canResolveCollisionWith b
    | _, _ => false

/-- One manifold pass of the resolver's velocity phase, on the store. -/
def resolveVelocityStore (cfg : Config) (bodies : List Body) (m : Manifold) :
    List Body :=
  match getBody bodies m.idA, getBody bodies m.idB with
  | some a, some b =>
      let p := CollisionResolver.resolveVelocityBodies cfg a b m
      updateBody (updateBody bodies m.idA fun _ => p.1) m.idB fun _ => p.2
  | _, _ => bodies

/-- One manifold pass of the resolver's position phase, on the store. -/
def resolvePositionStore (cfg : Config) (bodies : List Body) (m : Manifold) :
    List Body :=
  match getBody bodies m.idA, getBody bodies m.idB with
  | some a, some b =>
      let p := CollisionResolver.resolvePositionBodies cfg a b m
      updateBody (updateBody bodies m.idA fun _ => p.1) m.idB fun _ => p.2
  | _, _ => bodies

/-- `CollisionResolver.resolve(manifolds, dt)`: `velocityIterations` sweeps
of the velocity phase followed by `positionIterations` sweeps of the
position phase. -/
def resolve (cfg : Config) (manifolds : List Manifold) (bodies : List Body) :
    List Body :=
  let afterVelocity :=
    (List.range cfg.velocityIterations).foldl
      (fun bs _ => manifolds.foldl (resolveVelocityStore cfg) bs) bodies
  (List.range cfg.positionIterations).foldl
    (fun bs _ => manifolds.foldl (resolvePositionStore cfg) bs) afterVelocity

/-- `fixedStep(dt)`: CCD pass, detection, resolution of the resolvable
regular manifolds, integration of the remaining time, and the per-frame
clears.  (The event phase between detection and resolution does not touch
body state; the broad-phase sync does not either.) -/
def fixedStep (cfg : Config) (pairs : List (ℕ × ℕ)) (bodies : List Body)
    (dt : ℝ) : List Body :=
  let (bs1, consumedTime) := ccdPass cfg pairs bodies dt
  let (regularManifolds, _sensorManifolds) := detectPass bs1 pairs
  let bs2 := resolve cfg (resolvableManifolds bs1 regularManifolds) bs1
  let bs3 := bs2.map fun body =>
    let consumed := ((consumedTime.lookup body.id).getD 0)
    let remaining := dt - consumed
    if EPSILON < remaining then body.integrate remaining cfg.gravity else body
  bs3.map fun body => (body.clearForces).clearMovement

/-- The `while` loop of `step`, bounded by `maxSubSteps` (the fuel). -/
def stepLoop (cfg : Config) (pairsFn : List Body → List (ℕ × ℕ)) :
    ℕ → List Body → ℝ → List Body × ℝ
  | 0, bodies, accumulator => (bodies, accumulator)
  | fuel + 1, bodies, accumulator =>
      if cfg.timeStep ≤ accumulator then
        stepLoop cfg pairsFn fuel
          (fixedStep cfg (pairsFn bodies) bodies cfg.timeStep)
          (accumulator - cfg.timeStep)
      else (bodies, accumulator)

/-- `World.step(deltaTime)`: clamp the delta against the spiral of death,
accumulate, and run up to `maxSubSteps` fixed steps. -/
def step (cfg : Config) (pairsFn : List Body → List (ℕ × ℕ))
    (bodies : List Body) (accumulator deltaTime : ℝ) : List Body × ℝ :=
  let clampedDelta := min deltaTime ((cfg.maxSubSteps : ℝ) * cfg.timeStep)
  stepLoop cfg pairsFn cfg.maxSubSteps bodies (accumulator + clampedDelta)

/-- The public mutations claim C1 quantifies over: `step` plus the
force/impulse/movement entry points applied to a body of the world. -/
inductive Action where
  | step (deltaTime : ℝ)
  | applyForce (i : ℕ) (force : Vec)
  | applyImpulse (i : ℕ) (impulse : Vec)
  | applyMovement (i : ℕ) (impulse : Vec)

/-- Interpreting one action on the world state. -/
def runAction (cfg : Config) (pairsFn : List Body → List (ℕ × ℕ)) :
    List Body × ℝ → Action → List Body × ℝ
  | (bodies, accumulator), Action.step deltaTime =>
      step cfg pairsFn bodies accumulator deltaTime
  | (bodies, accumulator), Action.applyForce i force =>
      (updateBody bodies i fun b => b.applyForce force, accumulator)
  | (bodies, accumulator), Action.applyImpulse i impulse =>
      (updateBody bodies i fun b => b.applyImpulse impulse, accumulator)
  | (bodies, accumulator), Action.applyMovement i impulse =>
      (updateBody bodies i fun b => b.applyMovement impulse, accumulator)

/-- Interpreting a sequence of public-API actions. -/
def runActions (cfg : Config) (pairsFn : List Body → List (ℕ × ℕ))
    (st : List Body × ℝ) (actions : List Action) : List Body × ℝ :=
  actions.foldl (runAction cfg pairsFn) st

end World

namespace World

/-- The state claim C1 tracks for one body id: if a body in the store has
that id, it is static (`mass = Infinity`, cached `inverseMass = 0`, as
`setStatic` leaves it) and its position and velocity are the given ones. -/
def StaticBodyFixed (i : ℕ) (p v : Vec) (b : Body) : Prop :=
  b.id = i →
    b.mass = JsMass.inf ∧ b.inverseMass = 0 ∧ b.position = p ∧ b.velocity = v

/-- `StaticBodyFixed` for every body of the store. -/
def StaticFixed (i : ℕ) (p v : Vec) (bodies : List Body) : Prop :=
  ∀ b ∈ bodies, StaticBodyFixed i p v b

end World

/-! ### Concrete fixtures used by the theorems below -/

/-- The body produced by a successful `Body` constructor call with finite
mass `m` (the value inside `Except.ok`). -/
def mkTestBody (bodyId : ℕ) (shape : Shape) (material : Material) (m : ℝ) : Body :=
  { id := bodyId
    shape := shape
    velocity := Vec.zero
    acceleration := Vec.zero
    mass := JsMass.val m
    inverseMass := if EPSILON < m then m⁻¹ else 0
    forceAccumulator := Vec.zero
    movementVector := Vec.zero
    material := material
    isSensor := false
    layer := 0xffffffff
    resolutionMask := 0xffffffff
    eventMask := 0xffffffff }

/-- A body of tiny finite mass `1e-11`: `inverseMass = 0`, yet
`isStatic() = false`. -/
def c4TinyBody : Body :=
  { mkTestBody 0 (Shape.circle ⟨0, 0⟩ 1) ⟨1 / 5, 3 / 10⟩ (1 / 10 ^ 11) with
    inverseMass := 0 }

/-- A unit-mass body with restitution `4/5`. -/
def c4UnitBody : Body :=
  { mkTestBody 1 (Shape.circle ⟨3, 0⟩ 1) ⟨4 / 5, 3 / 10⟩ 1 with
    inverseMass := 1 }

/-- A tiny-mass body (`1e-11`, so `inverseMass = 0`) given a large velocity
through the public `setVelocity` (which has no static guard). -/
def c6Body : Body :=
  (mkTestBody 2 (Shape.circle ⟨0, 0⟩ 1) Material.DEFAULT (1 / 10 ^ 11)).setVelocity
    ⟨100, 0⟩

/-- A unit circle at the origin. -/
def c7TouchA : Body := mkTestBody 3 (Shape.circle ⟨0, 0⟩ 1) Material.DEFAULT 1

/-- A unit circle exactly touching `c7TouchA`: centre distance `2 = rA + rB`. -/
def c7TouchB : Body := mkTestBody 4 (Shape.circle ⟨2, 0⟩ 1) Material.DEFAULT 1

/-- A radius-2 circle at the origin. -/
def c7SepA : Body := mkTestBody 5 (Shape.circle ⟨0, 0⟩ 2) Material.DEFAULT 1

/-- A radius-2 circle separated from `c7SepA` (centre distance 5 > 4). -/
def c7SepB : Body := mkTestBody 6 (Shape.circle ⟨3, 4⟩ 2) Material.DEFAULT 1

/-- A tiny-mass body (`inverseMass = 0`, `isStatic() = false`) at rest. -/
def c5StaticLike : Body :=
  { mkTestBody 8 (Shape.circle ⟨0, 0⟩ 1) ⟨4 / 5, 3 / 10⟩ (1 / 10 ^ 11) with
    inverseMass := 0 }

/-- A unit-mass body moving and deliberately walking into `c5StaticLike`
(velocity `(-2, 0)`, unit movement vector `(-1, 0)`). -/
def c5Mover : Body :=
  { mkTestBody 9 (Shape.circle ⟨2, 0⟩ 1) ⟨4 / 5, 3 / 10⟩ 1 with
    inverseMass := 1, velocity := ⟨-2, 0⟩, movementVector := ⟨-1, 0⟩ }

/-- The contact between `c5StaticLike` (role A) and `c5Mover` (role B). -/
def c5Contact : Contact := { point := ⟨1, 0⟩, normal := ⟨1, 0⟩, penetration := 0 }

/-- A unit circle at the origin moving right at speed 1. -/
def c2A : Body :=
  (mkTestBody 10 (Shape.circle ⟨0, 0⟩ 1) Material.DEFAULT 1).setVelocity ⟨1, 0⟩

/-- A unit circle at rest exactly touching `c2A` at frame start. -/
def c2B : Body := mkTestBody 11 (Shape.circle ⟨2, 0⟩ 1) Material.DEFAULT 1

/-- A unit circle at the origin moving right at speed 2. -/
def c2C : Body :=
  (mkTestBody 12 (Shape.circle ⟨0, 0⟩ 1) Material.DEFAULT 1).setVelocity ⟨2, 0⟩

/-- A unit circle at rest hit by `c2C` exactly at the end of the frame. -/
def c2D : Body := mkTestBody 13 (Shape.circle ⟨4, 0⟩ 1) Material.DEFAULT 1

/-- A static sensor (trigger zone): unit circle at the origin. -/
def c3SensorA : Body :=
  { (mkTestBody 14 (Shape.circle ⟨0, 0⟩ 1) Material.DEFAULT 1).setStatic with
    isSensor := true }

/-- A second static sensor overlapping `c3SensorA` (centre distance 1). -/
def c3SensorB : Body :=
  { (mkTestBody 15 (Shape.circle ⟨1, 0⟩ 1) Material.DEFAULT 1).setStatic with
    isSensor := true }

/-! ## Theorems -/

theorem Vec.ext_xy {v w : Vec} (hx : v.x = w.x) (hy : v.y = w.y) : v = w := by
  cases v; cases w; cases hx; cases hy; rfl

theorem Shape.center_setCenter (s : Shape) (c : Vec) :
    (s.setCenter c).center = c := by
  cases s <;> rfl

/-! ### C9: collision keys -/

theorem cantor_w (s b : ℕ) (hb : b ≤ s) :
    (⌊(Real.sqrt (8 * ((s * (s + 1) / 2 + b : ℕ) : ℝ) + 1) - 1) / 2⌋).toNat = s := by
  have hK2 : s * (s + 1) / 2 * 2 = s * (s + 1) :=
    Nat.div_mul_cancel (Nat.even_mul_succ_self s).two_dvd
  have hKr : ((s * (s + 1) / 2 : ℕ) : ℝ) * 2 = (s : ℝ) * ((s : ℝ) + 1) := by
    exact_mod_cast congrArg (Nat.cast (R := ℝ)) hK2
  set X : ℝ := 8 * ((s * (s + 1) / 2 + b : ℕ) : ℝ) + 1 with hXdef
  have hX : X = 4 * (s : ℝ) * ((s : ℝ) + 1) + 8 * (b : ℝ) + 1 := by
    rw [hXdef]
    push_cast
    nlinarith [hKr]
  have hbR : (b : ℝ) ≤ (s : ℝ) := by exact_mod_cast hb
  have hs0 : (0 : ℝ) ≤ (s : ℝ) := Nat.cast_nonneg s
  have hb0 : (0 : ℝ) ≤ (b : ℝ) := Nat.cast_nonneg b
  have hlow : 2 * (s : ℝ) + 1 ≤ Real.sqrt X := by
    rw [Real.le_sqrt' (by linarith)]
    rw [hX]; ring_nf; nlinarith
  have hhigh : Real.sqrt X < 2 * (s : ℝ) + 3 := by
    rw [Real.sqrt_lt' (by linarith)]
    rw [hX]; ring_nf; nlinarith
  have hfloor : ⌊(Real.sqrt X - 1) / 2⌋ = (s : ℤ) := by
    rw [Int.floor_eq_iff]
    constructor
    · push_cast; linarith
    · push_cast; linarith
  rw [hfloor]
  exact Int.toNat_natCast s

/-- C9: the collision key is order-independent, `Pair.hash` computes the
same Cantor value as `World.getCollisionKey`, and `decomposeCollisionKey`
recovers exactly the sorted pair `(min, max)` of the two body ids (for
distinct ids this is the pair `World` reconstructs for ended collisions;
the statement holds for all ids, so the distinctness hypothesis of the
claim is not needed). -/
theorem collisionKey_roundTrip (idA idB : ℕ) :
    World.getCollisionKey idA idB = World.getCollisionKey idB idA ∧
    World.pairHash idA idB = World.getCollisionKey idA idB ∧
    World.decomposeCollisionKey (World.getCollisionKey idA idB) =
      (min idA idB, max idA idB) := by
  refine ⟨by simp [World.getCollisionKey, Nat.min_comm, Nat.max_comm], rfl, ?_⟩
  set lo := min idA idB
  set hi := max idA idB
  have hkey : World.getCollisionKey idA idB = (lo + hi) * (lo + hi + 1) / 2 + hi := rfl
  have hb : hi ≤ lo + hi := Nat.le_add_left hi lo
  have hw := cantor_w (lo + hi) hi hb
  unfold World.decomposeCollisionKey
  rw [hkey, hw]
  show ((lo + hi) - ((lo + hi) * (lo + hi + 1) / 2 + hi - ((lo + hi) * (lo + hi) + (lo + hi)) / 2),
        (lo + hi) * (lo + hi + 1) / 2 + hi - ((lo + hi) * (lo + hi) + (lo + hi)) / 2) = (lo, hi)
  have ht : (lo + hi) * (lo + hi) + (lo + hi) = (lo + hi) * (lo + hi + 1) := by ring
  rw [ht, Nat.add_sub_cancel_left, Nat.add_sub_cancel]

/-! ### Small helpers about vector and record updates -/

theorem Vec.sub_smul_zero (v w : Vec) : v.sub (w.smul 0) = v := by
  cases v; simp [Vec.sub, Vec.smul]

theorem Vec.add_smul_zero (v w : Vec) : v.add (w.smul 0) = v := by
  cases v; simp [Vec.add, Vec.smul]

theorem mkBody_val (bodyId : ℕ) (shape : Shape) (material : Material) (m : ℝ) :
    Body.mkBody bodyId shape material (JsMass.val m) =
      Except.ok (mkTestBody bodyId shape material m) := rfl

/-! ### C4: material combination in the manifold

The source tests staticness with `inverseMass < EPSILON`, not with
`isStatic()` (`mass === Infinity`).  The two tests disagree on bodies whose
finite mass lies in `(0, 1e-10]` (then `inverseMass = 0`) or above `1e10`
(then `0 < inverseMass < EPSILON`), so the claim's reading of "static" as
`isStatic()` fails; with staticness read as the code's inverse-mass test the
stated combination rules hold. -/

theorem c4TinyBody_fromConstructor :
    Body.mkBody 0 (Shape.circle ⟨0, 0⟩ 1) ⟨1 / 5, 3 / 10⟩ (JsMass.val (1 / 10 ^ 11)) =
      Except.ok c4TinyBody := by
  rw [mkBody_val]
  unfold c4TinyBody mkTestBody
  rw [if_neg (by unfold EPSILON; norm_num)]

theorem c4UnitBody_fromConstructor :
    Body.mkBody 1 (Shape.circle ⟨3, 0⟩ 1) ⟨4 / 5, 3 / 10⟩ (JsMass.val 1) =
      Except.ok c4UnitBody := by
  rw [mkBody_val]
  unfold c4UnitBody mkTestBody
  rw [if_pos (by unfold EPSILON; norm_num), inv_one]

/-- C4, counterexample: for the pair (tiny-mass body, unit-mass body)
neither body is static in the `isStatic()` sense, so the claim as stated
demands the arithmetic mean `(1/5 + 4/5)/2 = 1/2`; the constructed manifold
instead carries the unit body's restitution `4/5`, because the code
classifies the tiny-mass body as static through `inverseMass < EPSILON`. -/
theorem manifold_restitution_counterexample :
    c4TinyBody.isStatic = false ∧ c4UnitBody.isStatic = false ∧
    (mkManifold c4TinyBody c4UnitBody []).restitution = 4 / 5 ∧
    (4 / 5 : ℝ) ≠ (1 / 5 + 4 / 5) / 2 := by
  refine ⟨rfl, rfl, ?_, by norm_num⟩
  show calculateRestitution c4TinyBody c4UnitBody = 4 / 5
  have ha : c4TinyBody.inverseMass = 0 := rfl
  have hb : c4UnitBody.inverseMass = 1 := rfl
  simp only [calculateRestitution, ha, hb]
  rw [if_pos ⟨by unfold EPSILON; norm_num, by unfold EPSILON; norm_num⟩]
  rfl

/-- C4, amended: with "static" read as the code's test
`inverseMass < EPSILON`, the combined restitution of every constructed
manifold is the dynamic body's restitution when exactly one body is static
and the arithmetic mean otherwise, and the combined friction is always the
geometric mean `sqrt(frictionA * frictionB)`. -/
theorem manifold_material_combination (a b : Body) (contacts : List Contact) :
    (mkManifold a b contacts).restitution =
      (if CollisionResolver.isDynamicVsStatic a b then
        (if a.inverseMass < EPSILON then b else a).material.restitution
      else (a.material.restitution + b.material.restitution) / 2) ∧
    (mkManifold a b contacts).friction =
      Real.sqrt (a.material.friction * b.material.friction) := by
  refine ⟨?_, rfl⟩
  show calculateRestitution a b = _
  unfold calculateRestitution CollisionResolver.isDynamicVsStatic
  by_cases ha : a.inverseMass < EPSILON <;> by_cases hb : b.inverseMass < EPSILON <;>
    simp [ha, hb]

/-! ### C8: static encoding and the infinite-mass guards -/

/-- C8: constructing a body with `mass = Infinity` fails with the
descriptive error and produces no body; `setMass(Infinity)` on a dynamic
body fails with the descriptive error and changes nothing (the embedding
returns no updated body in the error case, matching the source, which
throws before any assignment); `setMass` with any finite value on a static
body is a no-op returning the body unchanged (so mass stays `Infinity` and
`inverseMass` stays `0`); and `isStatic()` holds exactly when the stored
mass is the `Infinity` marker. -/
theorem static_encoding_and_guards :
    (∀ (bodyId : ℕ) (shape : Shape) (material : Material),
      Body.mkBody bodyId shape material JsMass.inf =
        Except.error "Cannot create body with infinite mass. Use setStatic() instead.") ∧
    (∀ b : Body, b.isStatic = false →
      b.setMass JsMass.inf =
        Except.error "Cannot set mass to Infinity. Use setStatic() instead.") ∧
    (∀ (b : Body) (m : ℝ), b.isStatic = true →
      b.setMass (JsMass.val m) = Except.ok b) ∧
    (∀ b : Body, b.isStatic = true ↔ b.mass = JsMass.inf) := by
  refine ⟨fun _ _ _ => rfl, ?_, ?_, ?_⟩
  · intro b hb
    unfold Body.setMass
    rw [hb]
    rfl
  · intro b m hb
    unfold Body.setMass
    rw [hb]
    rfl
  · intro b
    unfold Body.isStatic
    cases h : b.mass <;> simp [h]

/-! ### Helper lemmas: the resolver never moves a zero-inverse-mass body -/

theorem Shape.setCenter_center (s : Shape) : s.setCenter s.center = s := by
  cases s <;> rfl

theorem Body.setCenter_position (b : Body) : b.setCenter b.position = b := by
  show { b with shape := b.shape.setCenter b.shape.center } = b
  rw [Shape.setCenter_center]

theorem Body.velocity_sub_smul_invMass_zero (a : Body) (w : Vec)
    (ha : a.inverseMass = 0) :
    ({ a with velocity := a.velocity.sub (w.smul a.inverseMass) } : Body) = a := by
  have hv : a.velocity.sub (w.smul a.inverseMass) = a.velocity := by
    rw [ha]; exact Vec.sub_smul_zero _ _
  rw [hv]

theorem Body.velocity_add_smul_invMass_zero (b : Body) (w : Vec)
    (hb : b.inverseMass = 0) :
    ({ b with velocity := b.velocity.add (w.smul b.inverseMass) } : Body) = b := by
  have hv : b.velocity.add (w.smul b.inverseMass) = b.velocity := by
    rw [hb]; exact Vec.add_smul_zero _ _
  rw [hv]

theorem applyFriction_fst (a b : Body) (c : Contact) (fric j : ℝ)
    (ha : a.inverseMass = 0) :
    (CollisionResolver.applyFriction a b c fric j).1 = a := by
  unfold CollisionResolver.applyFriction
  dsimp only
  split
  · rfl
  · exact Body.velocity_sub_smul_invMass_zero a _ ha

theorem applyFriction_snd (a b : Body) (c : Contact) (fric j : ℝ)
    (hb : b.inverseMass = 0) :
    (CollisionResolver.applyFriction a b c fric j).2 = b := by
  unfold CollisionResolver.applyFriction
  dsimp only
  split
  · rfl
  · exact Body.velocity_add_smul_invMass_zero b _ hb

theorem resolveVelocityContact_fst (cfg : Config) (a b : Body)
    (rest fric : ℝ) (c : Contact) (ha : a.inverseMass = 0) :
    (CollisionResolver.resolveVelocityContact cfg a b rest fric c).1 = a := by
  unfold CollisionResolver.resolveVelocityContact
  dsimp only
  split
  · rfl
  · rw [Body.velocity_sub_smul_invMass_zero a
      (c.normal.smul (CollisionResolver.normalImpulse cfg a b rest c)) ha]
    split
    · exact applyFriction_fst _ _ _ _ _ ha
    · rfl

theorem resolveVelocityContact_snd (cfg : Config) (a b : Body)
    (rest fric : ℝ) (c : Contact) (hb : b.inverseMass = 0) :
    (CollisionResolver.resolveVelocityContact cfg a b rest fric c).2 = b := by
  unfold CollisionResolver.resolveVelocityContact
  dsimp only
  split
  · rfl
  · rw [Body.velocity_add_smul_invMass_zero b
      (c.normal.smul (CollisionResolver.normalImpulse cfg a b rest c)) hb]
    split
    · exact applyFriction_snd _ _ _ _ _ hb
    · rfl

theorem resolveVelocityBodies_fst (cfg : Config) (a : Body)
    (ha : a.inverseMass = 0) (m : Manifold) :
    ∀ b : Body, (CollisionResolver.resolveVelocityBodies cfg a b m).1 = a := by
  unfold CollisionResolver.resolveVelocityBodies
  suffices h : ∀ (cs : List Contact) (b : Body),
      (cs.foldl
        (fun (p : Body × Body) contact =>
          CollisionResolver.resolveVelocityContact cfg p.1 p.2 m.restitution
            m.friction contact) (a, b)).1 = a by
    intro b
    split
    · rfl
    · exact h m.contacts b
  intro cs
  induction cs with
  | nil => intro b; rfl
  | cons c cs ih =>
      intro b
      show (cs.foldl _
        (CollisionResolver.resolveVelocityContact cfg a b m.restitution m.friction c)).1 = a
      rcases hp : CollisionResolver.resolveVelocityContact cfg a b m.restitution
          m.friction c with ⟨x, y⟩
      have hx : x = a := by
        have := resolveVelocityContact_fst cfg a b m.restitution m.friction c ha
        rw [hp] at this
        exact this
      rw [hx]
      exact ih y

theorem resolveVelocityBodies_snd (cfg : Config) (b : Body)
    (hb : b.inverseMass = 0) (m : Manifold) :
    ∀ a : Body, (CollisionResolver.resolveVelocityBodies cfg a b m).2 = b := by
  unfold CollisionResolver.resolveVelocityBodies
  suffices h : ∀ (cs : List Contact) (a : Body),
      (cs.foldl
        (fun (p : Body × Body) contact =>
          CollisionResolver.resolveVelocityContact cfg p.1 p.2 m.restitution
            m.friction contact) (a, b)).2 = b by
    intro a
    split
    · rfl
    · exact h m.contacts a
  intro cs
  induction cs with
  | nil => intro a; rfl
  | cons c cs ih =>
      intro a
      show (cs.foldl _
        (CollisionResolver.resolveVelocityContact cfg a b m.restitution m.friction c)).2 = b
      rcases hp : CollisionResolver.resolveVelocityContact cfg a b m.restitution
          m.friction c with ⟨x, y⟩
      have hy : y = b := by
        have := resolveVelocityContact_snd cfg a b m.restitution m.friction c hb
        rw [hp] at this
        exact this
      rw [hy]
      exact ih x

theorem Body.center_sub_smul_invMass_zero (a : Body) (w : Vec) (d : ℝ)
    (ha : a.inverseMass = 0) :
    a.setCenter (a.position.sub (w.smul (a.inverseMass / d))) = a := by
  have h : a.inverseMass / d = 0 := by rw [ha]; exact zero_div d
  rw [h, Vec.sub_smul_zero, Body.setCenter_position]

theorem Body.center_add_smul_invMass_zero (b : Body) (w : Vec) (d : ℝ)
    (hb : b.inverseMass = 0) :
    b.setCenter (b.position.add (w.smul (b.inverseMass / d))) = b := by
  have h : b.inverseMass / d = 0 := by rw [hb]; exact zero_div d
  rw [h, Vec.add_smul_zero, Body.setCenter_position]

theorem resolvePositionContact_fst (cfg : Config) (a b : Body) (c : Contact)
    (ha : a.inverseMass = 0) :
    (CollisionResolver.resolvePositionContact cfg a b c).1 = a := by
  unfold CollisionResolver.resolvePositionContact
  dsimp only
  split
  · rfl
  · exact Body.center_sub_smul_invMass_zero a _ _ ha

theorem resolvePositionContact_snd (cfg : Config) (a b : Body) (c : Contact)
    (hb : b.inverseMass = 0) :
    (CollisionResolver.resolvePositionContact cfg a b c).2 = b := by
  unfold CollisionResolver.resolvePositionContact
  dsimp only
  split
  · rfl
  · exact Body.center_add_smul_invMass_zero b _ _ hb

theorem resolvePositionBodies_fst (cfg : Config) (a : Body)
    (ha : a.inverseMass = 0) (m : Manifold) :
    ∀ b : Body, (CollisionResolver.resolvePositionBodies cfg a b m).1 = a := by
  unfold CollisionResolver.resolvePositionBodies
  suffices h : ∀ (cs : List Contact) (b : Body),
      (cs.foldl
        (fun (p : Body × Body) contact =>
          CollisionResolver.resolvePositionContact cfg p.1 p.2 contact) (a, b)).1 = a by
    intro b
    split
    · rfl
    · exact h m.contacts b
  intro cs
  induction cs with
  | nil => intro b; rfl
  | cons c cs ih =>
      intro b
      show (cs.foldl _ (CollisionResolver.resolvePositionContact cfg a b c)).1 = a
      rcases hp : CollisionResolver.resolvePositionContact cfg a b c with ⟨x, y⟩
      have hx : x = a := by
        have := resolvePositionContact_fst cfg a b c ha
        rw [hp] at this
        exact this
      rw [hx]
      exact ih y

theorem resolvePositionBodies_snd (cfg : Config) (b : Body)
    (hb : b.inverseMass = 0) (m : Manifold) :
    ∀ a : Body, (CollisionResolver.resolvePositionBodies cfg a b m).2 = b := by
  unfold CollisionResolver.resolvePositionBodies
  suffices h : ∀ (cs : List Contact) (a : Body),
      (cs.foldl
        (fun (p : Body × Body) contact =>
          CollisionResolver.resolvePositionContact cfg p.1 p.2 contact) (a, b)).2 = b by
    intro a
    split
    · rfl
    · exact h m.contacts a
  intro cs
  induction cs with
  | nil => intro a; rfl
  | cons c cs ih =>
      intro a
      show (cs.foldl _ (CollisionResolver.resolvePositionContact cfg a b c)).2 = b
      rcases hp : CollisionResolver.resolvePositionContact cfg a b c with ⟨x, y⟩
      have hy : y = b := by
        have := resolvePositionContact_snd cfg a b c hb
        rw [hp] at this
        exact this
      rw [hy]
      exact ih x

/-- C8, witness: a concrete static body and a concrete dynamic body
exercising every hypothesis of `static_encoding_and_guards`. -/
theorem static_encoding_and_guards_witness :
    (mkTestBody 0 (Shape.circle ⟨0, 0⟩ 1) Material.DEFAULT 1).setMass JsMass.inf =
      Except.error "Cannot set mass to Infinity. Use setStatic() instead." ∧
    ((mkTestBody 0 (Shape.circle ⟨0, 0⟩ 1) Material.DEFAULT 1).setStatic).setMass
        (JsMass.val 5) =
      Except.ok ((mkTestBody 0 (Shape.circle ⟨0, 0⟩ 1) Material.DEFAULT 1).setStatic) ∧
    ((mkTestBody 0 (Shape.circle ⟨0, 0⟩ 1) Material.DEFAULT 1).setStatic).isStatic = true :=
  ⟨static_encoding_and_guards.2.1 _ rfl,
   static_encoding_and_guards.2.2.1 _ 5 rfl,
   (static_encoding_and_guards.2.2.2 _).mpr rfl⟩

/-! ### C6: the swept-test threshold -/

/-- C6, counterexample: `needsSweptTest` is not equivalent to the
displacement test alone.  A body of finite mass `1e-11` (so
`inverseMass = 0`, reachable through the constructor) given velocity
`(100, 0)` through the public `setVelocity` travels `100 > 0.5 · 2` per
unit step, yet `needsSweptTest` returns false because of its
`inverseMass < EPSILON` guard. -/
theorem needsSweptTest_counterexample :
    ¬ ContinuousCollisionDetection.needsSweptTest c6Body 1 ∧
    (min (c6Body.getAABB.max.x - c6Body.getAABB.min.x)
        (c6Body.getAABB.max.y - c6Body.getAABB.min.y)) * (1 / 2) <
      c6Body.velocity.length * 1 := by
  have hinv : c6Body.inverseMass = 0 := by
    show (if EPSILON < 1 / 10 ^ 11 then ((1 : ℝ) / 10 ^ 11)⁻¹ else 0) = 0
    rw [if_neg (by unfold EPSILON; norm_num)]
  constructor
  · unfold ContinuousCollisionDetection.needsSweptTest
    rw [if_pos (by rw [hinv]; unfold EPSILON; norm_num)]
    exact not_false
  · have hv : c6Body.velocity.length = 100 := by
      show Real.sqrt ((100 : ℝ) * 100 + 0 * 0) = 100
      rw [show (100 : ℝ) * 100 + 0 * 0 = 100 ^ 2 by norm_num]
      exact Real.sqrt_sq (by norm_num)
    rw [hv]
    show min ((0 + 1) - (0 - 1)) ((0 + 1) - (0 - 1)) * ((1 : ℝ) / 2) < 100 * 1
    norm_num

/-- C6, amended: `needsSweptTest(body, dt)` returns true exactly when the
body's `inverseMass` is at least `EPSILON` (in particular the body is not
static) and the displacement `|velocity|·dt` strictly exceeds half the
smallest dimension of the body's AABB. -/
theorem needsSweptTest_iff (b : Body) (dt : ℝ) :
    ContinuousCollisionDetection.needsSweptTest b dt ↔
      ¬b.inverseMass < EPSILON ∧
        (1 / 2) *
            min (b.getAABB.max.x - b.getAABB.min.x)
              (b.getAABB.max.y - b.getAABB.min.y) <
          b.velocity.length * dt := by
  unfold ContinuousCollisionDetection.needsSweptTest
  split
  · simp_all
  · rename_i h
    dsimp only
    rw [mul_comm]
    simp [h]

/-! ### C7: the circle–circle detector

The legacy detector (src/src tree) rejects exactly when `d² ≥ rSum²`, as the
claim states; the packages detector rejects through
`testCircleCircleOverlap`, i.e. only when `d² ≥ rSum² + EPSILON_SQ`, so at
`d² = rSum²` it still returns a contact (of penetration `rSum − d ≤ 0`). -/

/-- C7, counterexample: two unit circles with centre distance exactly
`rA + rB = 2` (so `d² = rSum²`).  The claim demands "no contact when
`d² ≥ rSum²`", but the packages circle–circle detector returns a manifold
here. -/
theorem circleCircle_detector_counterexample :
    c7TouchA.position.distanceSquared c7TouchB.position =
      (c7TouchA.shape.circleRadius + c7TouchB.shape.circleRadius) *
        (c7TouchA.shape.circleRadius + c7TouchB.shape.circleRadius) ∧
    (detectCircleCircle c7TouchA c7TouchB).isSome = true := by
  constructor
  · show ((0 : ℝ) - 2) * ((0 : ℝ) - 2) + ((0 : ℝ) - 0) * ((0 : ℝ) - 0) =
      ((1 : ℝ) + 1) * ((1 : ℝ) + 1)
    norm_num
  · unfold detectCircleCircle
    rw [if_pos]
    · rfl
    · show ((0 : ℝ) - 2) * ((0 : ℝ) - 2) + ((0 : ℝ) - 0) * ((0 : ℝ) - 0) <
        ((1 : ℝ) + 1) * ((1 : ℝ) + 1) + EPSILON_SQ
      unfold EPSILON_SQ EPSILON
      norm_num

/-- C7, amended: full characterisation of both circle–circle detectors over
circles `A = (pA, rA)`, `B = (pB, rB)` with `d² = |pB − pA|²`,
`rSum = rA + rB`, `d = sqrt d²`.  The legacy detector returns no contact
exactly when `d² ≥ rSum²`; the packages detector returns no contact exactly
when `d² ≥ rSum² + EPSILON_SQ`.  Whenever a contact is produced it is the
shared construction: for `d < EPSILON` the contact is
`(pA, normal (1,0), penetration rSum)`, and otherwise it has normal
`n = (pB − pA)/d`, contact point `pA + n·rA` and penetration `rSum − d`. -/
theorem circleCircle_detector_characterisation (a b : Body) (pA pB : Vec)
    (rA rB : ℝ) (ha : a.shape = Shape.circle pA rA)
    (hb : b.shape = Shape.circle pB rB) :
    ((rA + rB) * (rA + rB) ≤ pA.distanceSquared pB →
      Legacy.detectCircleCircle a b = none) ∧
    (pA.distanceSquared pB < (rA + rB) * (rA + rB) →
      Legacy.detectCircleCircle a b =
        some (mkManifold a b [circleCircleContact a b])) ∧
    ((rA + rB) * (rA + rB) + EPSILON_SQ ≤ pA.distanceSquared pB →
      detectCircleCircle a b = none) ∧
    (pA.distanceSquared pB < (rA + rB) * (rA + rB) + EPSILON_SQ →
      detectCircleCircle a b =
        some (mkManifold a b [circleCircleContact a b])) ∧
    (Real.sqrt (pA.distanceSquared pB) < EPSILON →
      circleCircleContact a b =
        { point := pA, normal := ⟨1, 0⟩, penetration := rA + rB }) ∧
    (¬Real.sqrt (pA.distanceSquared pB) < EPSILON →
      circleCircleContact a b =
        { point := pA.add
            ((⟨(pB.x - pA.x) / Real.sqrt (pA.distanceSquared pB),
               (pB.y - pA.y) / Real.sqrt (pA.distanceSquared pB)⟩ : Vec).smul rA)
          normal := ⟨(pB.x - pA.x) / Real.sqrt (pA.distanceSquared pB),
                     (pB.y - pA.y) / Real.sqrt (pA.distanceSquared pB)⟩
          penetration := rA + rB - Real.sqrt (pA.distanceSquared pB) }) := by
  have hpa : a.position = pA := by unfold Body.position; rw [ha]; rfl
  have hpb : b.position = pB := by unfold Body.position; rw [hb]; rfl
  have hra : a.shape.circleRadius = rA := by rw [ha]; rfl
  have hrb : b.shape.circleRadius = rB := by rw [hb]; rfl
  refine ⟨?_, ?_, ?_, ?_, ?_, ?_⟩
  · intro h
    unfold Legacy.detectCircleCircle
    dsimp only
    rw [hpa, hpb, hra, hrb, if_pos h]
  · intro h
    unfold Legacy.detectCircleCircle
    dsimp only
    rw [hpa, hpb, hra, hrb, if_neg (not_le.mpr h)]
  · intro h
    unfold detectCircleCircle
    rw [hpa, hpb, hra, hrb, if_neg]
    unfold testCircleCircleOverlap
    exact not_lt.mpr h
  · intro h
    unfold detectCircleCircle
    rw [hpa, hpb, hra, hrb, if_pos]
    unfold testCircleCircleOverlap
    exact h
  · intro h
    unfold circleCircleContact
    dsimp only
    rw [hpa, hpb, hra, hrb, if_pos h]
  · intro h
    unfold circleCircleContact
    dsimp only
    rw [hpa, hpb, hra, hrb, if_neg h]
    have hdiv : (pB.sub pA).divide (Real.sqrt (pA.distanceSquared pB)) =
        ⟨(pB.x - pA.x) / Real.sqrt (pA.distanceSquared pB),
         (pB.y - pA.y) / Real.sqrt (pA.distanceSquared pB)⟩ := by
      unfold Vec.divide
      rw [if_neg]
      · rfl
      · unfold approxZero
        rw [abs_of_nonneg (Real.sqrt_nonneg _)]
        exact h
    rw [hdiv]

/-- C7, witness: concrete separated circles (radii 2, centre distance 5)
make both detectors return `none`. -/
theorem circleCircle_detector_witness :
    Legacy.detectCircleCircle c7SepA c7SepB = none ∧
    detectCircleCircle c7SepA c7SepB = none := by
  have h := circleCircle_detector_characterisation c7SepA c7SepB ⟨0, 0⟩ ⟨3, 4⟩ 2 2
    rfl rfl
  refine ⟨h.1 ?_, h.2.2.1 ?_⟩
  · show ((2 : ℝ) + 2) * ((2 : ℝ) + 2) ≤
      ((0 : ℝ) - 3) * ((0 : ℝ) - 3) + ((0 : ℝ) - 4) * ((0 : ℝ) - 4)
    norm_num
  · show ((2 : ℝ) + 2) * ((2 : ℝ) + 2) + EPSILON_SQ ≤
      ((0 : ℝ) - 3) * ((0 : ℝ) - 3) + ((0 : ℝ) - 4) * ((0 : ℝ) - 4)
    unfold EPSILON_SQ EPSILON
    norm_num

/-! ### C5: the resolver's per-contact velocity rule

As in C4, the resolver decides "static" with `inverseMass < EPSILON`, not
`isStatic()`; the claims' plain "static" therefore fails against bodies of
finite mass at most `1e-10` (or above `1e10`). -/

/-- C5, counterexample: for the contact pair (tiny-mass body A,
unit-mass mover B with movement `(-1,0)` into A) neither body is static in
the `isStatic()` sense and `|vN| = 2` exceeds the resting threshold, so the
claim as stated demands `e = restitution = 4/5` and
`j = -(1 + 4/5)·(-2)/1 = 18/5`; the code instead treats the pair as
dynamic-vs-static (A has `inverseMass = 0`), fires the intentional-movement
override (`e = 0`) and computes `j = 2`. -/
theorem resolver_restitution_counterexample :
    c5StaticLike.isStatic = false ∧ c5Mover.isStatic = false ∧
    CollisionResolver.normalImpulse Config.default c5StaticLike c5Mover (4 / 5)
        c5Contact = 2 ∧
    (2 : ℝ) ≠ -(1 + 4 / 5) * (-2) / (0 + 1) := by
  refine ⟨rfl, rfl, ?_, by norm_num⟩
  have hvN : ((c5Mover.velocity.sub c5StaticLike.velocity).dot c5Contact.normal) =
      -2 := by
    show (-2 - 0 : ℝ) * 1 + (0 - 0) * 0 = -2
    norm_num
  have hAinv : c5StaticLike.inverseMass < EPSILON := by
    show (0 : ℝ) < EPSILON
    unfold EPSILON; norm_num
  have hBinv : ¬c5Mover.inverseMass < EPSILON := by
    show ¬((1 : ℝ) < EPSILON)
    unfold EPSILON; norm_num
  unfold CollisionResolver.normalImpulse
  dsimp only
  rw [hvN]
  have he : CollisionResolver.effectiveRestitution Config.default c5StaticLike
      c5Mover (4 / 5) c5Contact (-2) = 0 := by
    unfold CollisionResolver.effectiveRestitution
    dsimp only
    rw [if_neg (show ¬(|(-2 : ℝ)| < Config.default.restingVelocityThreshold) by
      show ¬(|(-2 : ℝ)| < (1 / 2 : ℝ))
      rw [abs_of_nonpos (by norm_num : (-2 : ℝ) ≤ 0)]
      norm_num)]
    rw [if_pos (show CollisionResolver.isDynamicVsStatic c5StaticLike c5Mover from
      Or.inl ⟨hAinv, hBinv⟩)]
    rw [if_pos hAinv, if_pos hAinv]
    rw [if_pos (show EPSILON_SQ < c5Mover.movementVector.lengthSquared by
      show EPSILON_SQ < (-1 : ℝ) * (-1) + 0 * 0
      unfold EPSILON_SQ EPSILON; norm_num)]
    rw [if_pos (show c5Mover.movementVector.dot c5Contact.normal * 1 < -EPSILON by
      show ((-1 : ℝ) * 1 + 0 * 0) * 1 < -EPSILON
      unfold EPSILON; norm_num)]
  rw [he]
  show -(1 + 0) * (-2) / ((0 : ℝ) + 1) = 2
  norm_num

/-- C5, amended: with "static" read as the code's `inverseMass < EPSILON`
test, the per-contact velocity rule is as claimed: a contact with
`vN > 0` is skipped entirely, and otherwise the normal impulse is
`j = -(1 + e)·vN/(invMassA + invMassB)` where `e = 0` when
`|vN| < restingVelocityThreshold`, or when exactly one body is static and
the dynamic body's movement vector has squared length above `EPSILON_SQ`
and is oriented into the wall (its dot with the normal, signed towards the
static body, is below `-EPSILON`); in all other cases `e` is the manifold's
combined restitution. -/
theorem resolver_velocity_contact_rule (cfg : Config) (a b : Body)
    (rest fric : ℝ) (c : Contact) :
    (0 < (b.velocity.sub a.velocity).dot c.normal →
      CollisionResolver.resolveVelocityContact cfg a b rest fric c = (a, b)) ∧
    CollisionResolver.normalImpulse cfg a b rest c =
      -(1 +
          (if |(b.velocity.sub a.velocity).dot c.normal| <
                cfg.restingVelocityThreshold ∨
              (CollisionResolver.isDynamicVsStatic a b ∧
                EPSILON_SQ <
                  (if a.inverseMass < EPSILON then b
                    else a).movementVector.lengthSquared ∧
                (if a.inverseMass < EPSILON then b
                  else a).movementVector.dot c.normal *
                    (if a.inverseMass < EPSILON then (1 : ℝ) else -1) <
                  -EPSILON)
            then 0 else rest)) *
        ((b.velocity.sub a.velocity).dot c.normal) /
        (a.inverseMass + b.inverseMass) := by
  constructor
  · intro h
    unfold CollisionResolver.resolveVelocityContact
    dsimp only
    rw [if_pos h]
  · unfold CollisionResolver.normalImpulse
    dsimp only
    congr 2
    unfold CollisionResolver.effectiveRestitution
    dsimp only
    by_cases hrest :
      |(b.velocity.sub a.velocity).dot c.normal| < cfg.restingVelocityThreshold
    · rw [if_pos hrest, if_pos (Or.inl hrest)]
    · rw [if_neg hrest]
      by_cases hdyn : CollisionResolver.isDynamicVsStatic a b
      · rw [if_pos hdyn]
        by_cases hlen :
          EPSILON_SQ <
            (if a.inverseMass < EPSILON then b else a).movementVector.lengthSquared
        · rw [if_pos hlen]
          by_cases hdot :
            (if a.inverseMass < EPSILON then b else a).movementVector.dot c.normal *
                (if a.inverseMass < EPSILON then (1 : ℝ) else -1) < -EPSILON
          · rw [if_pos hdot, if_pos (Or.inr ⟨hdyn, hlen, hdot⟩)]
          · rw [if_neg hdot, if_neg]
            rintro (h | ⟨-, -, h⟩)
            · exact hrest h
            · exact hdot h
        · rw [if_neg hlen, if_neg]
          rintro (h | ⟨-, h, -⟩)
          · exact hrest h
          · exact hlen h
      · rw [if_neg hdyn, if_neg]
        rintro (h | ⟨h, -, -⟩)
        · exact hrest h
        · exact hdyn h

/-- C5, witness: a concrete separating contact (`vN = 100 > 0`) is
skipped: the pair is returned unchanged. -/
theorem resolver_velocity_contact_rule_witness :
    CollisionResolver.resolveVelocityContact Config.default c7TouchA c6Body
      (1 / 2) (3 / 10) c5Contact = (c7TouchA, c6Body) :=
  (resolver_velocity_contact_rule Config.default c7TouchA c6Body (1 / 2) (3 / 10)
      c5Contact).1
    (by show (0 : ℝ) < (100 - 0) * 1 + (0 - 0) * 0; norm_num)

/-! ### C2: swept-collision time of impact

`toi = 0` is reachable: the quadratic's smaller root is accepted when it is
exactly `0` (bodies already touching at frame start, still approaching), and
`raycastAABB` starts `tMin` at `0` and never rejects `tMin = 0`.  The code's
own doc comment says "toi = 0.0 means already touching at start of frame".
So the interval is `[0, 1]`, not `(0, 1]`. -/

theorem raycastSlab_ge (minC maxC originC dirC tMin tMax : ℝ)
    (nPos nNeg nPrev : Vec) (t' tM' : ℝ) (n' : Vec)
    (h : ContinuousCollisionDetection.raycastSlab minC maxC originC dirC tMin tMax
      nPos nNeg nPrev = some (t', tM', n')) : tMin ≤ t' := by
  unfold ContinuousCollisionDetection.raycastSlab at h
  dsimp only at h
  split at h
  · split at h
    · rename_i hadv
      injection h with h'
      rw [show t' = min ((minC - originC) / dirC) ((maxC - originC) / dirC) by
        exact (congrArg Prod.fst h').symm]
      exact le_of_lt hadv
    · injection h with h'
      rw [show t' = tMin from (congrArg Prod.fst h').symm]
  · split at h
    · exact absurd h (by simp)
    · injection h with h'
      rw [show t' = tMin from (congrArg Prod.fst h').symm]

theorem raycastAABB_toi_bounds (origin direction : Vec) (aabb : AABB)
    (maxT : ℝ) (hT : 0 < maxT) (r : SweptResult)
    (h : ContinuousCollisionDetection.raycastAABB origin direction aabb maxT =
      some r) : 0 ≤ r.toi ∧ r.toi ≤ 1 := by
  unfold ContinuousCollisionDetection.raycastAABB at h
  rcases hx : ContinuousCollisionDetection.raycastSlab aabb.min.x aabb.max.x
      origin.x direction.x 0 maxT ⟨-1, 0⟩ ⟨1, 0⟩ ⟨0, 0⟩ with _ | ⟨tMin1, tMax1, n1⟩
  · rw [hx] at h
    exact absurd h (by simp)
  · rw [hx] at h
    have h0x : (0 : ℝ) ≤ tMin1 := raycastSlab_ge _ _ _ _ _ _ _ _ _ _ _ _ hx
    dsimp only at h
    rcases hy : ContinuousCollisionDetection.raycastSlab aabb.min.y aabb.max.y
        origin.y direction.y tMin1 tMax1 ⟨0, -1⟩ ⟨0, 1⟩ n1 with _ | ⟨tMin, tMax, n⟩
    · rw [hy] at h
      exact absurd h (by simp)
    · rw [hy] at h
      have h0y : tMin1 ≤ tMin := raycastSlab_ge _ _ _ _ _ _ _ _ _ _ _ _ hy
      dsimp only at h
      split at h
      · exact absurd h (by simp)
      · split at h
        · exact absurd h (by simp)
        · split at h
          · exact absurd h (by simp)
          · rename_i hle
            injection h with h'
            rw [← h']
            constructor
            · exact div_nonneg (le_trans h0x h0y) (le_of_lt hT)
            · exact (div_le_one hT).mpr (not_lt.mp hle)

theorem sweptCircleCircle_toi_bounds (a b : Body) (v : Vec) (dt : ℝ)
    (hdt : 0 < dt) (r : SweptResult)
    (h : ContinuousCollisionDetection.sweptCircleCircle a b v dt = some r) :
    0 ≤ r.toi ∧ r.toi ≤ 1 := by
  unfold ContinuousCollisionDetection.sweptCircleCircle at h
  dsimp only at h
  split at h
  · exact absurd h (by simp)
  · split at h
    · exact absurd h (by simp)
    · rename_i hcond
      push_neg at hcond
      injection h with h'
      rw [← h']
      exact ⟨div_nonneg hcond.1 hdt.le, (div_le_one hdt).mpr hcond.2⟩

/-- C2, counterexample: two unit circles already touching at frame start
(`c2A` at the origin moving right, `c2B` at `(2,0)` at rest) produce a
non-null swept result with `toi = 0`, refuting strict positivity. -/
theorem sweptCollision_toi_counterexample :
    (ContinuousCollisionDetection.checkSweptCollision c2A c2B 1).map
      SweptResult.toi = some 0 := by
  have h16 : Real.sqrt 16 = 4 := by
    rw [show (16 : ℝ) = 4 ^ 2 by norm_num]
    exact Real.sqrt_sq (by norm_num)
  unfold ContinuousCollisionDetection.checkSweptCollision
  rw [if_neg (show ¬((c2A.velocity.sub c2B.velocity).lengthSquared < EPSILON) by
    show ¬(((1 : ℝ) - 0) * ((1 : ℝ) - 0) + ((0 : ℝ) - 0) * ((0 : ℝ) - 0) < EPSILON)
    unfold EPSILON; norm_num)]
  show (ContinuousCollisionDetection.sweptCircleCircle c2A c2B
      (c2A.velocity.sub c2B.velocity) 1).map SweptResult.toi = some 0
  unfold ContinuousCollisionDetection.sweptCircleCircle
  norm_num [c2A, c2B, mkTestBody, Body.setVelocity, Body.position, Shape.center,
    Shape.circleRadius, Vec.dot, Vec.sub, Vec.add, Vec.smul, Vec.zero, h16]

/-- C2, amended: whenever `checkSweptCollision` returns a non-null result
for `dt > 0`, the returned `toi` lies in the closed interval `[0, 1]`
(`toi = 0` occurs when the bodies already touch at the start of the
frame). -/
theorem sweptCollision_toi_bounds (a b : Body) (dt : ℝ) (hdt : 0 < dt)
    (r : SweptResult)
    (h : ContinuousCollisionDetection.checkSweptCollision a b dt = some r) :
    0 ≤ r.toi ∧ r.toi ≤ 1 := by
  unfold ContinuousCollisionDetection.checkSweptCollision at h
  dsimp only at h
  split at h
  · exact absurd h (by simp)
  · split at h
    · exact sweptCircleCircle_toi_bounds _ _ _ _ hdt r h
    · unfold ContinuousCollisionDetection.sweptCircleRect at h
      exact raycastAABB_toi_bounds _ _ _ _ hdt r h
    · rcases Option.map_eq_some'.mp h with ⟨r0, hr0, hmap⟩
      unfold ContinuousCollisionDetection.sweptCircleRect at hr0
      have := raycastAABB_toi_bounds _ _ _ _ hdt r0 hr0
      rw [← hmap]
      exact this
    · unfold ContinuousCollisionDetection.sweptRectRect at h
      exact raycastAABB_toi_bounds _ _ _ _ hdt r h

/-- C2, witness: `c2C` (speed 2 from the origin) hits `c2D` (unit circle at
`(4,0)`) exactly at the end of the unit frame, `toi = 1`; the theorem's
bounds apply to that concrete non-null result. -/
theorem sweptCollision_toi_bounds_witness :
    ∃ r : SweptResult,
      ContinuousCollisionDetection.checkSweptCollision c2C c2D 1 = some r ∧
      0 ≤ r.toi ∧ r.toi ≤ 1 := by
  have h64 : Real.sqrt 64 = 8 := by
    rw [show (64 : ℝ) = 8 ^ 2 by norm_num]
    exact Real.sqrt_sq (by norm_num)
  have heval : ∃ r : SweptResult,
      ContinuousCollisionDetection.checkSweptCollision c2C c2D 1 = some r := by
    unfold ContinuousCollisionDetection.checkSweptCollision
    rw [if_neg (show ¬((c2C.velocity.sub c2D.velocity).lengthSquared < EPSILON) by
      show ¬(((2 : ℝ) - 0) * ((2 : ℝ) - 0) + ((0 : ℝ) - 0) * ((0 : ℝ) - 0) < EPSILON)
      unfold EPSILON; norm_num)]
    show ∃ r, ContinuousCollisionDetection.sweptCircleCircle c2C c2D
        (c2C.velocity.sub c2D.velocity) 1 = some r
    unfold ContinuousCollisionDetection.sweptCircleCircle
    norm_num [c2C, c2D, mkTestBody, Body.setVelocity, Body.position, Shape.center,
      Shape.circleRadius, Vec.dot, Vec.sub, Vec.add, Vec.smul, Vec.zero, h64]
  obtain ⟨r, hr⟩ := heval
  exact ⟨r, hr, sweptCollision_toi_bounds c2C c2D 1 one_pos r hr⟩

/-! ### C3: sensor bypass

`emitCollisionEvents` skips static–static pairs *before* the sensor bypass
of `canEmitEventWith`, so a pair of overlapping static sensors (a perfectly
ordinary configuration: trigger zones are static sensors) emits nothing,
refuting "events are emitted regardless" for such pairs.  The predicate
facts (`canEmitEventWith` true, `canResolveCollisionWith` false) and the
exclusion from the resolver hold as claimed. -/

/-- C3, counterexample: two overlapping static sensors.  Narrow-phase
detection produces a manifold, the pair involves sensors, yet the world's
per-pair emission decision is negative because both bodies are static. -/
theorem sensor_event_counterexample :
    c3SensorA.isSensor = true ∧ c3SensorB.isSensor = true ∧
    (CollisionDetector.detect c3SensorA c3SensorB).isSome = true ∧
    World.emitsStartOrActive c3SensorA c3SensorB = false := by
  refine ⟨rfl, rfl, ?_, rfl⟩
  show (detectCircleCircle c3SensorA c3SensorB).isSome = true
  unfold detectCircleCircle
  rw [if_pos]
  · rfl
  · show ((0 : ℝ) - 1) * ((0 : ℝ) - 1) + ((0 : ℝ) - 0) * ((0 : ℝ) - 0) <
      ((1 : ℝ) + 1) * ((1 : ℝ) + 1) + EPSILON_SQ
    unfold EPSILON_SQ EPSILON
    norm_num

/-- C3, amended: for every pair with at least one sensor,
`canEmitEventWith` is true (sensor bypass of the event masks) and
`canResolveCollisionWith` is false in both directions; the world's
emission decision for a colliding pair equals "not both static" (so sensor
pairs emit *unless both bodies are static*, the world's static–static skip
coming first); and every manifold that reaches the resolver
(`resolvableManifolds`) has two non-sensor bodies, so no impulse is ever
applied from a sensor contact. -/
theorem sensor_bypass (a b : Body)
    (h : a.isSensor = true ∨ b.isSensor = true) :
    a.canEmitEventWith b = true ∧
    a.canResolveCollisionWith b = false ∧
    b.canResolveCollisionWith a = false ∧
    World.emitsStartOrActive a b = !(a.isStatic && b.isStatic) ∧
    (∀ (bodies : List Body) (regular : List Manifold) (m : Manifold),
      m ∈ World.resolvableManifolds bodies regular →
      ∀ A B : Body, World.getBody bodies m.idA = some A →
        World.getBody bodies m.idB = some B →
        A.isSensor = false ∧ B.isSensor = false) := by
  have hor : (a.isSensor || b.isSensor) = true := by
    rcases h with h | h <;> simp [h]
  have hor' : (b.isSensor || a.isSensor) = true := by
    rcases h with h | h <;> simp [h]
  have hemit : a.canEmitEventWith b = true := by
    unfold Body.canEmitEventWith
    rw [if_pos hor]
  refine ⟨hemit, ?_, ?_, ?_, ?_⟩
  · unfold Body.canResolveCollisionWith
    rw [if_pos hor]
  · unfold Body.canResolveCollisionWith
    rw [if_pos hor']
  · unfold World.emitsStartOrActive
    rw [hemit, Bool.and_true]
  · intro bodies regular m hm A B hA hB
    have hf := (List.mem_filter.mp hm).2
    rw [hA, hB] at hf
    dsimp only at hf
    unfold Body.canResolveCollisionWith at hf
    have hns : (A.isSensor || B.isSensor) = false := by
      by_contra hcon
      have htrue : (A.isSensor || B.isSensor) = true := by
        revert hcon
        cases A.isSensor || B.isSensor <;> simp
      rw [if_pos htrue] at hf
      exact absurd hf (by simp)
    exact ⟨(Bool.or_eq_false_iff.mp hns).1, (Bool.or_eq_false_iff.mp hns).2⟩

/-- C3, witness: the concrete static-sensor pair discharges the sensor
hypothesis; its `canEmitEventWith` is true and it can never be resolved. -/
theorem sensor_bypass_witness :
    c3SensorA.canEmitEventWith c3SensorB = true ∧
    c3SensorA.canResolveCollisionWith c3SensorB = false :=
  ⟨(sensor_bypass c3SensorA c3SensorB (Or.inl rfl)).1,
   (sensor_bypass c3SensorA c3SensorB (Or.inl rfl)).2.1⟩

/-! ### C10: bodies with finite mass at or below EPSILON -/

/-- C10: a body constructed with finite mass `0 < m ≤ EPSILON` gets
`inverseMass = 0` (not `1/m`) while `isStatic()` is false; consequently, for
every body in that state, `applyImpulse` changes nothing, the resolver's
velocity and position phases leave it untouched on either side of a
manifold, the manifold restitution combination classifies it as static
(pairing it with a dynamic body yields that body's restitution), and
`integrate` still takes the dynamic branch (so it keeps integrating and
damping like a dynamic body). -/
theorem tinyMass_body_behaviour (bodyId : ℕ) (shape : Shape) (material : Material)
    (m : ℝ) (_h0 : 0 < m) (hm : m ≤ EPSILON) :
    Body.mkBody bodyId shape material (JsMass.val m) =
      Except.ok (mkTestBody bodyId shape material m) ∧
    (mkTestBody bodyId shape material m).inverseMass = 0 ∧
    (mkTestBody bodyId shape material m).isStatic = false ∧
    (∀ b : Body, b.inverseMass = 0 → b.isStatic = false →
      (∀ imp, b.applyImpulse imp = b) ∧
      (∀ (cfg : Config) (other : Body) (mfld : Manifold),
        (CollisionResolver.resolveVelocityBodies cfg b other mfld).1 = b ∧
        (CollisionResolver.resolvePositionBodies cfg b other mfld).1 = b ∧
        (CollisionResolver.resolveVelocityBodies cfg other b mfld).2 = b ∧
        (CollisionResolver.resolvePositionBodies cfg other b mfld).2 = b) ∧
      (∀ other : Body, ¬other.inverseMass < EPSILON →
        calculateRestitution b other = other.material.restitution) ∧
      (∀ dt g, b.integrate dt g = b.integrateDynamic dt g)) := by
  refine ⟨mkBody_val bodyId shape material m, ?_, rfl, ?_⟩
  · show (if EPSILON < m then m⁻¹ else 0) = 0
    rw [if_neg (not_lt.mpr hm)]
  · intro b hb hstat
    refine ⟨?_, ?_, ?_, ?_⟩
    · intro imp
      unfold Body.applyImpulse
      rw [if_neg (by rw [hstat]; exact Bool.false_ne_true)]
      exact Body.velocity_add_smul_invMass_zero b imp hb
    · intro cfg other mfld
      exact ⟨resolveVelocityBodies_fst cfg b hb mfld other,
        resolvePositionBodies_fst cfg b hb mfld other,
        resolveVelocityBodies_snd cfg b hb mfld other,
        resolvePositionBodies_snd cfg b hb mfld other⟩
    · intro other hOther
      unfold calculateRestitution
      dsimp only
      rw [if_pos ⟨by rw [hb]; unfold EPSILON; norm_num, hOther⟩]
    · intro dt g
      unfold Body.integrate
      rw [if_neg (by rw [hstat]; exact Bool.false_ne_true)]

/-- C10, witness: the concrete boundary mass `m = EPSILON`. -/
theorem tinyMass_body_behaviour_witness :
    Body.mkBody 7 (Shape.circle ⟨0, 0⟩ 1) Material.DEFAULT (JsMass.val EPSILON) =
      Except.ok (mkTestBody 7 (Shape.circle ⟨0, 0⟩ 1) Material.DEFAULT EPSILON) ∧
    (mkTestBody 7 (Shape.circle ⟨0, 0⟩ 1) Material.DEFAULT EPSILON).inverseMass = 0 ∧
    (mkTestBody 7 (Shape.circle ⟨0, 0⟩ 1) Material.DEFAULT EPSILON).isStatic = false :=
  ⟨(tinyMass_body_behaviour 7 (Shape.circle ⟨0, 0⟩ 1) Material.DEFAULT EPSILON
      (by unfold EPSILON; norm_num) le_rfl).1,
   (tinyMass_body_behaviour 7 (Shape.circle ⟨0, 0⟩ 1) Material.DEFAULT EPSILON
      (by unfold EPSILON; norm_num) le_rfl).2.1,
   (tinyMass_body_behaviour 7 (Shape.circle ⟨0, 0⟩ 1) Material.DEFAULT EPSILON
      (by unfold EPSILON; norm_num) le_rfl).2.2.1⟩

/-! ### C1: static immovability

The proof strategy: every mutation `World.step` performs on a body goes
through `integrate`, the resolver's velocity/position write-backs, or the
per-frame clears; each preserves `StaticBodyFixed`, and the store operations
(`updateBody`, `map`, the folds) lift that pointwise preservation.  The
broad-phase output is universally quantified (`pairsFn`), so the result
holds whatever candidate pairs the spatial hash produces. -/

theorem foldl_invariant {α β : Type} (Inv : α → Prop) (f : α → β → α)
    (hf : ∀ s x, Inv s → Inv (f s x)) :
    ∀ (l : List β) (st : α), Inv st → Inv (l.foldl f st) := by
  intro l
  induction l with
  | nil => intro st h; exact h
  | cons x xs ih => intro st h; exact ih (f st x) (hf st x h)

theorem integrate_id (b : Body) (dt g : ℝ) : (b.integrate dt g).id = b.id := by
  unfold Body.integrate Body.integrateDynamic
  split <;> rfl

theorem integrate_static (b : Body) (h : b.mass = JsMass.inf) (dt g : ℝ) :
    b.integrate dt g = b := by
  unfold Body.integrate Body.isStatic
  rw [h]
  rfl

theorem applyForce_static (b : Body) (h : b.mass = JsMass.inf) (f : Vec) :
    b.applyForce f = b := by
  unfold Body.applyForce Body.isStatic
  rw [h]
  rfl

theorem applyImpulse_static (b : Body) (h : b.mass = JsMass.inf) (imp : Vec) :
    b.applyImpulse imp = b := by
  unfold Body.applyImpulse Body.isStatic
  rw [h]
  rfl

theorem applyMovement_static (b : Body) (h : b.mass = JsMass.inf) (imp : Vec) :
    b.applyMovement imp = b := by
  unfold Body.applyMovement Body.isStatic
  rw [h]
  rfl

theorem clears_fields (b : Body) :
    ((b.clearForces).clearMovement).id = b.id ∧
    ((b.clearForces).clearMovement).mass = b.mass ∧
    ((b.clearForces).clearMovement).inverseMass = b.inverseMass ∧
    ((b.clearForces).clearMovement).position = b.position ∧
    ((b.clearForces).clearMovement).velocity = b.velocity :=
  ⟨rfl, rfl, rfl, rfl, rfl⟩

theorem resolveVelocity_fold_ids (cfg : Config) (rest fric : ℝ) :
    ∀ (cs : List Contact) (x y : Body),
      (cs.foldl
        (fun (q : Body × Body) contact =>
          CollisionResolver.resolveVelocityContact cfg q.1 q.2 rest fric contact)
        (x, y)).1.id = x.id ∧
      (cs.foldl
        (fun (q : Body × Body) contact =>
          CollisionResolver.resolveVelocityContact cfg q.1 q.2 rest fric contact)
        (x, y)).2.id = y.id := by
  intro cs
  induction cs with
  | nil => intro x y; exact ⟨rfl, rfl⟩
  | cons c cs ih =>
      intro x y
      have hstep : ∀ u w : Body,
          (CollisionResolver.resolveVelocityContact cfg u w rest fric c).1.id = u.id ∧
          (CollisionResolver.resolveVelocityContact cfg u w rest fric c).2.id = w.id := by
        intro u w
        unfold CollisionResolver.resolveVelocityContact
          CollisionResolver.applyFriction
        dsimp only
        split
        · exact ⟨rfl, rfl⟩
        · split
          · split
            · exact ⟨rfl, rfl⟩
            · exact ⟨rfl, rfl⟩
          · exact ⟨rfl, rfl⟩
      rcases hp : CollisionResolver.resolveVelocityContact cfg x y rest fric c
        with ⟨x', y'⟩
      have hx' : x'.id = x.id := by
        have := (hstep x y).1; rw [hp] at this; exact this
      have hy' : y'.id = y.id := by
        have := (hstep x y).2; rw [hp] at this; exact this
      rw [List.foldl_cons]
      dsimp only
      rw [hp]
      exact ⟨(ih x' y').1.trans hx', (ih x' y').2.trans hy'⟩

theorem resolvePosition_fold_ids (cfg : Config) :
    ∀ (cs : List Contact) (x y : Body),
      (cs.foldl
        (fun (q : Body × Body) contact =>
          CollisionResolver.resolvePositionContact cfg q.1 q.2 contact)
        (x, y)).1.id = x.id ∧
      (cs.foldl
        (fun (q : Body × Body) contact =>
          CollisionResolver.resolvePositionContact cfg q.1 q.2 contact)
        (x, y)).2.id = y.id := by
  intro cs
  induction cs with
  | nil => intro x y; exact ⟨rfl, rfl⟩
  | cons c cs ih =>
      intro x y
      have hstep : ∀ u w : Body,
          (CollisionResolver.resolvePositionContact cfg u w c).1.id = u.id ∧
          (CollisionResolver.resolvePositionContact cfg u w c).2.id = w.id := by
        intro u w
        unfold CollisionResolver.resolvePositionContact
        dsimp only
        split
        · exact ⟨rfl, rfl⟩
        · constructor
          · show (Body.setCenter u _).id = u.id
            unfold Body.setCenter
            rfl
          · show (Body.setCenter w _).id = w.id
            unfold Body.setCenter
            rfl
      rcases hp : CollisionResolver.resolvePositionContact cfg x y c with ⟨x', y'⟩
      have hx' : x'.id = x.id := by
        have := (hstep x y).1; rw [hp] at this; exact this
      have hy' : y'.id = y.id := by
        have := (hstep x y).2; rw [hp] at this; exact this
      rw [List.foldl_cons]
      dsimp only
      rw [hp]
      exact ⟨(ih x' y').1.trans hx', (ih x' y').2.trans hy'⟩

theorem resolveVelocityBodies_ids (cfg : Config) (a b : Body) (m : Manifold) :
    (CollisionResolver.resolveVelocityBodies cfg a b m).1.id = a.id ∧
    (CollisionResolver.resolveVelocityBodies cfg a b m).2.id = b.id := by
  unfold CollisionResolver.resolveVelocityBodies
  split
  · exact ⟨rfl, rfl⟩
  · exact resolveVelocity_fold_ids cfg m.restitution m.friction m.contacts a b

theorem resolvePositionBodies_ids (cfg : Config) (a b : Body) (m : Manifold) :
    (CollisionResolver.resolvePositionBodies cfg a b m).1.id = a.id ∧
    (CollisionResolver.resolvePositionBodies cfg a b m).2.id = b.id := by
  unfold CollisionResolver.resolvePositionBodies
  split
  · exact ⟨rfl, rfl⟩
  · exact resolvePosition_fold_ids cfg m.contacts a b

theorem updateBody_preserves (i : ℕ) (p v : Vec) (bodies : List Body) (j : ℕ)
    (f : Body → Body) (h : World.StaticFixed i p v bodies)
    (hf : ∀ b, World.StaticBodyFixed i p v b → World.StaticBodyFixed i p v (f b)) :
    World.StaticFixed i p v (World.updateBody bodies j f) := by
  intro b' hb'
  unfold World.updateBody at hb'
  rcases List.mem_map.mp hb' with ⟨b, hb, hmap⟩
  subst hmap
  split
  · exact hf b (h b hb)
  · exact h b hb

theorem updateBody_const_preserves (i : ℕ) (p v : Vec) (bodies : List Body)
    (j : ℕ) (A : Body) (h : World.StaticFixed i p v bodies)
    (hA : World.StaticBodyFixed i p v A) :
    World.StaticFixed i p v (World.updateBody bodies j fun _ => A) :=
  updateBody_preserves i p v bodies j _ h fun _ _ => hA

theorem map_preserves (i : ℕ) (p v : Vec) (bodies : List Body) (f : Body → Body)
    (h : World.StaticFixed i p v bodies)
    (hf : ∀ b, World.StaticBodyFixed i p v b → World.StaticBodyFixed i p v (f b)) :
    World.StaticFixed i p v (bodies.map f) := by
  intro b' hb'
  rcases List.mem_map.mp hb' with ⟨b, hb, hmap⟩
  subst hmap
  exact hf b (h b hb)

theorem integrate_SBF (i : ℕ) (p v : Vec) (dt g : ℝ) (b : Body)
    (hb : World.StaticBodyFixed i p v b) :
    World.StaticBodyFixed i p v (b.integrate dt g) := by
  intro hid
  have hbid : b.id = i := (integrate_id b dt g).symm.trans hid
  have hP := hb hbid
  rw [integrate_static b hP.1 dt g]
  exact hP

theorem applyForce_id (b : Body) (f : Vec) : (b.applyForce f).id = b.id := by
  unfold Body.applyForce
  split <;> rfl

theorem applyImpulse_id (b : Body) (imp : Vec) :
    (b.applyImpulse imp).id = b.id := by
  unfold Body.applyImpulse
  split <;> rfl

theorem applyMovement_id (b : Body) (imp : Vec) :
    (b.applyMovement imp).id = b.id := by
  unfold Body.applyMovement Body.applyImpulse
  split
  · rfl
  · dsimp only
    split <;> split <;> rfl

theorem applyForce_SBF (i : ℕ) (p v : Vec) (f : Vec) (b : Body)
    (hb : World.StaticBodyFixed i p v b) :
    World.StaticBodyFixed i p v (b.applyForce f) := by
  intro hid
  have hbid : b.id = i := (applyForce_id b f).symm.trans hid
  have hP := hb hbid
  rw [applyForce_static b hP.1 f]
  exact hP

theorem applyImpulse_SBF (i : ℕ) (p v : Vec) (imp : Vec) (b : Body)
    (hb : World.StaticBodyFixed i p v b) :
    World.StaticBodyFixed i p v (b.applyImpulse imp) := by
  intro hid
  have hbid : b.id = i := (applyImpulse_id b imp).symm.trans hid
  have hP := hb hbid
  rw [applyImpulse_static b hP.1 imp]
  exact hP

theorem applyMovement_SBF (i : ℕ) (p v : Vec) (imp : Vec) (b : Body)
    (hb : World.StaticBodyFixed i p v b) :
    World.StaticBodyFixed i p v (b.applyMovement imp) := by
  intro hid
  have hbid : b.id = i := (applyMovement_id b imp).symm.trans hid
  have hP := hb hbid
  rw [applyMovement_static b hP.1 imp]
  exact hP

theorem clears_SBF (i : ℕ) (p v : Vec) (b : Body)
    (hb : World.StaticBodyFixed i p v b) :
    World.StaticBodyFixed i p v ((b.clearForces).clearMovement) := by
  intro hid
  have hP := hb hid
  exact hP

theorem getBody_mem_id (bodies : List Body) (j : ℕ) (A : Body)
    (h : World.getBody bodies j = some A) : A ∈ bodies ∧ A.id = j := by
  unfold World.getBody at h
  refine ⟨List.mem_of_find?_eq_some h, ?_⟩
  have := List.find?_some h
  simpa using this

theorem resolveVelocityStore_preserves (cfg : Config) (i : ℕ) (p v : Vec)
    (bodies : List Body) (m : Manifold) (h : World.StaticFixed i p v bodies) :
    World.StaticFixed i p v (World.resolveVelocityStore cfg bodies m) := by
  unfold World.resolveVelocityStore
  rcases hA : World.getBody bodies m.idA with _ | A <;>
    rcases hB : World.getBody bodies m.idB with _ | B <;> dsimp only
  · exact h
  · exact h
  · exact h
  · have hmemA := getBody_mem_id bodies m.idA A hA
    have hmemB := getBody_mem_id bodies m.idB B hB
    have hSA : World.StaticBodyFixed i p v
        (CollisionResolver.resolveVelocityBodies cfg A B m).1 := by
      intro hid
      have hAid : A.id = i :=
        ((resolveVelocityBodies_ids cfg A B m).1).symm.trans hid
      have hPA := h A hmemA.1 hAid
      rw [resolveVelocityBodies_fst cfg A hPA.2.1 m B]
      exact hPA
    have hSB : World.StaticBodyFixed i p v
        (CollisionResolver.resolveVelocityBodies cfg A B m).2 := by
      intro hid
      have hBid : B.id = i :=
        ((resolveVelocityBodies_ids cfg A B m).2).symm.trans hid
      have hPB := h B hmemB.1 hBid
      rw [resolveVelocityBodies_snd cfg B hPB.2.1 m A]
      exact hPB
    exact updateBody_const_preserves i p v _ m.idB _
      (updateBody_const_preserves i p v bodies m.idA _ h hSA) hSB

theorem resolvePositionStore_preserves (cfg : Config) (i : ℕ) (p v : Vec)
    (bodies : List Body) (m : Manifold) (h : World.StaticFixed i p v bodies) :
    World.StaticFixed i p v (World.resolvePositionStore cfg bodies m) := by
  unfold World.resolvePositionStore
  rcases hA : World.getBody bodies m.idA with _ | A <;>
    rcases hB : World.getBody bodies m.idB with _ | B <;> dsimp only
  · exact h
  · exact h
  · exact h
  · have hmemA := getBody_mem_id bodies m.idA A hA
    have hmemB := getBody_mem_id bodies m.idB B hB
    have hSA : World.StaticBodyFixed i p v
        (CollisionResolver.resolvePositionBodies cfg A B m).1 := by
      intro hid
      have hAid : A.id = i :=
        ((resolvePositionBodies_ids cfg A B m).1).symm.trans hid
      have hPA := h A hmemA.1 hAid
      rw [resolvePositionBodies_fst cfg A hPA.2.1 m B]
      exact hPA
    have hSB : World.StaticBodyFixed i p v
        (CollisionResolver.resolvePositionBodies cfg A B m).2 := by
      intro hid
      have hBid : B.id = i :=
        ((resolvePositionBodies_ids cfg A B m).2).symm.trans hid
      have hPB := h B hmemB.1 hBid
      rw [resolvePositionBodies_snd cfg B hPB.2.1 m A]
      exact hPB
    exact updateBody_const_preserves i p v _ m.idB _
      (updateBody_const_preserves i p v bodies m.idA _ h hSA) hSB

theorem resolve_preserves (cfg : Config) (i : ℕ) (p v : Vec)
    (manifolds : List Manifold) (bodies : List Body)
    (h : World.StaticFixed i p v bodies) :
    World.StaticFixed i p v (World.resolve cfg manifolds bodies) := by
  unfold World.resolve
  apply foldl_invariant (World.StaticFixed i p v)
  · intro s x hs
    exact foldl_invariant (World.StaticFixed i p v) _
      (fun s' m hs' => resolvePositionStore_preserves cfg i p v s' m hs')
      manifolds s hs
  · apply foldl_invariant (World.StaticFixed i p v)
    · intro s x hs
      exact foldl_invariant (World.StaticFixed i p v) _
        (fun s' m hs' => resolveVelocityStore_preserves cfg i p v s' m hs')
        manifolds s hs
    · exact h

theorem ccdPass_preserves (cfg : Config) (i : ℕ) (p v : Vec)
    (pairs : List (ℕ × ℕ)) (bodies : List Body) (dt : ℝ)
    (h : World.StaticFixed i p v bodies) :
    World.StaticFixed i p v (World.ccdPass cfg pairs bodies dt).1 := by
  unfold World.ccdPass
  apply foldl_invariant (fun (st : List Body × List (ℕ × ℝ)) =>
    World.StaticFixed i p v st.1)
  · intro st pair hst
    obtain ⟨bs, ct⟩ := st
    dsimp only at hst ⊢
    rcases hA : World.getBody bs pair.1 with _ | A <;>
      rcases hB : World.getBody bs pair.2 with _ | B <;> dsimp only
    · exact hst
    · exact hst
    · exact hst
    · split
      · exact hst
      · split
        · rcases ContinuousCollisionDetection.checkSweptCollision A B dt
            with _ | r <;> dsimp only
          · exact hst
          · exact updateBody_preserves i p v _ B.id _
              (updateBody_preserves i p v bs A.id _ hst
                (fun b hb => integrate_SBF i p v _ cfg.gravity b hb))
              (fun b hb => integrate_SBF i p v _ cfg.gravity b hb)
        · exact hst
  · exact h

theorem fixedStep_preserves (cfg : Config) (i : ℕ) (p v : Vec)
    (pairs : List (ℕ × ℕ)) (bodies : List Body) (dt : ℝ)
    (h : World.StaticFixed i p v bodies) :
    World.StaticFixed i p v (World.fixedStep cfg pairs bodies dt) := by
  unfold World.fixedStep
  rcases hc : World.ccdPass cfg pairs bodies dt with ⟨bs1, ct⟩
  have h1 : World.StaticFixed i p v bs1 := by
    have := ccdPass_preserves cfg i p v pairs bodies dt h
    rw [hc] at this
    exact this
  dsimp only
  rcases hd : World.detectPass bs1 pairs with ⟨regular, sensor⟩
  dsimp only
  apply map_preserves i p v _ _ _ (fun b hb => clears_SBF i p v b hb)
  apply map_preserves i p v _ _ ?_ ?_
  · exact resolve_preserves cfg i p v _ bs1 h1
  · intro b hb
    by_cases hcond : EPSILON < dt - (List.lookup b.id ct).getD 0
    · rw [if_pos hcond]
      exact integrate_SBF i p v _ cfg.gravity b hb
    · rw [if_neg hcond]
      exact hb

theorem stepLoop_preserves (cfg : Config)
    (pairsFn : List Body → List (ℕ × ℕ)) (i : ℕ) (p v : Vec) :
    ∀ (fuel : ℕ) (bodies : List Body) (accumulator : ℝ),
      World.StaticFixed i p v bodies →
      World.StaticFixed i p v
        (World.stepLoop cfg pairsFn fuel bodies accumulator).1 := by
  intro fuel
  induction fuel with
  | zero => intro bodies acc h; exact h
  | succ n ih =>
      intro bodies acc h
      unfold World.stepLoop
      split
      · exact ih _ _ (fixedStep_preserves cfg i p v (pairsFn bodies) bodies
          cfg.timeStep h)
      · exact h

theorem step_preserves (cfg : Config) (pairsFn : List Body → List (ℕ × ℕ))
    (i : ℕ) (p v : Vec) (bodies : List Body) (accumulator deltaTime : ℝ)
    (h : World.StaticFixed i p v bodies) :
    World.StaticFixed i p v
      (World.step cfg pairsFn bodies accumulator deltaTime).1 := by
  unfold World.step
  exact stepLoop_preserves cfg pairsFn i p v cfg.maxSubSteps bodies _ h

theorem runAction_preserves (cfg : Config)
    (pairsFn : List Body → List (ℕ × ℕ)) (i : ℕ) (p v : Vec)
    (st : List Body × ℝ) (act : World.Action)
    (h : World.StaticFixed i p v st.1) :
    World.StaticFixed i p v (World.runAction cfg pairsFn st act).1 := by
  obtain ⟨bodies, acc⟩ := st
  cases act with
  | step dt => exact step_preserves cfg pairsFn i p v bodies acc dt h
  | applyForce j f =>
      exact updateBody_preserves i p v bodies j _ h
        (fun b hb => applyForce_SBF i p v f b hb)
  | applyImpulse j imp =>
      exact updateBody_preserves i p v bodies j _ h
        (fun b hb => applyImpulse_SBF i p v imp b hb)
  | applyMovement j imp =>
      exact updateBody_preserves i p v bodies j _ h
        (fun b hb => applyMovement_SBF i p v imp b hb)

/-- C1: static immovability.  For every configuration, every broad-phase
output (`pairsFn` ranges over all candidate-pair producers), every body id
`i` and every sequence of public-API actions (`step` with arbitrary
`deltaTime`, `applyForce`, `applyImpulse`, `applyMovement`): if every body
with id `i` in the store is static (mass `Infinity`, cached inverse mass
`0`, as `setStatic` leaves it) at position `p` with velocity `v`, the same
holds after the whole action sequence; in particular looking the body up
afterwards yields exactly position `p` and velocity `v` (the embedding's
real-number equality: the code performs no arithmetic at all on a static
body's position or velocity, so this is bit-exactness). -/
theorem static_immovability (cfg : Config)
    (pairsFn : List Body → List (ℕ × ℕ)) (actions : List World.Action)
    (bodies : List Body) (accumulator : ℝ) (i : ℕ) (p v : Vec)
    (h : World.StaticFixed i p v bodies) :
    World.StaticFixed i p v
      (World.runActions cfg pairsFn (bodies, accumulator) actions).1 ∧
    (∀ b : Body,
      World.getBody
          (World.runActions cfg pairsFn (bodies, accumulator) actions).1 i =
        some b →
      b.position = p ∧ b.velocity = v) := by
  have hrun : World.StaticFixed i p v
      (World.runActions cfg pairsFn (bodies, accumulator) actions).1 := by
    unfold World.runActions
    exact foldl_invariant (fun (st : List Body × ℝ) =>
        World.StaticFixed i p v st.1)
      (World.runAction cfg pairsFn)
      (fun st act hst => runAction_preserves cfg pairsFn i p v st act hst)
      actions (bodies, accumulator) h
  refine ⟨hrun, ?_⟩
  intro b hb
  have hmem := getBody_mem_id _ i b hb
  have := hrun b hmem.1 hmem.2
  exact ⟨this.2.2.1, this.2.2.2⟩

/-- C1, witness: a concrete static body at `(5,5)` subjected to a force, an
impulse and an intentional movement through the public API; looking it up
afterwards yields exactly the initial position and velocity. -/
theorem static_immovability_witness :
    ((mkTestBody 16 (Shape.circle ⟨5, 5⟩ 1) Material.DEFAULT 1).setStatic).position =
      ⟨5, 5⟩ ∧
    ((mkTestBody 16 (Shape.circle ⟨5, 5⟩ 1) Material.DEFAULT 1).setStatic).velocity =
      Vec.zero :=
  (static_immovability Config.default (fun _ => [])
      [World.Action.applyForce 16 ⟨3, 4⟩,
       World.Action.applyImpulse 16 ⟨1, 2⟩,
       World.Action.applyMovement 16 ⟨0, 1⟩]
      [(mkTestBody 16 (Shape.circle ⟨5, 5⟩ 1) Material.DEFAULT 1).setStatic] 0 16
      ⟨5, 5⟩ Vec.zero
      (by
        intro b hb hid
        rcases List.mem_singleton.mp hb with rfl
        exact ⟨rfl, rfl, rfl, rfl⟩)).2
    ((mkTestBody 16 (Shape.circle ⟨5, 5⟩ 1) Material.DEFAULT 1).setStatic) rfl

end

end Physick
